import Mathlib

/-!
Shallow embedding of the scoring engine of `src/enhanced_scorer_v7.py`
(classes `CourseAnalyzer`, `RunningStyleAnalyzer`, `RaceScorer`), together
with theorems settling the frozen claims about it.

Conventions of the embedding:
* Python floats are modelled as exact rationals.
* A Python dict-based record is modelled as a structure whose field value is
  the result of the corresponding `race.get(key, default)` call; fields whose
  `None` value is distinguished by the code (`goal_time_diff`, `race_date`)
  are `Option`-typed, with `none` standing for Python `None` / a missing or
  unparseable value.
* Dates are modelled as absolute day numbers (an `Int`); the subtraction of
  two parsed `datetime`s in days is the subtraction of day numbers.  The
  ambient `datetime.now()` read by the layoff penalty is made explicit as a
  `today : Int` parameter.
* `round(x, 1)` (Python banker's rounding to one decimal) is `pyRound10`.
-/

namespace Scorer

/-- Python `round(x, 1)`: round to one decimal digit, ties to even. -/
def pyRound10 (x : ℚ) : ℚ :=
  let y : ℚ := x * 10
  let f : ℤ := ⌊y⌋
  let r : ℚ := y - (f : ℚ)
  let n : ℤ :=
    if r < 1/2 then f
    else if 1/2 < r then f + 1
    else if f % 2 = 0 then f else f + 1
  (n : ℚ) / 10

/-- Helper for `listHasSub`: does `pat` occur at the head of `s`? -/
def listHasPre : List Char → List Char → Bool
  | [], _ => true
  | _ :: _, [] => false
  | p :: ps, c :: cs => p == c && listHasPre ps cs

/-- Does `pat` occur as a contiguous sublist of `s`? -/
def listHasSub (pat : List Char) : List Char → Bool
  | [] => pat.isEmpty
  | c :: cs => listHasPre pat (c :: cs) || listHasSub pat cs

/-- Python `pat in s` on strings (substring containment). -/
def pyIn (pat s : String) : Bool := listHasSub pat.toList s.toList

/-- Python `str.upper()`; only ASCII letters change case, as in the source's
race labels. -/
def pyUpper (s : String) : String := String.map Char.toUpper s

/-- One entry of a record's `all_horses_results` snapshot; field values are
the dict entries under their `get` defaults. -/
structure HorseResult where
  chakujun : Int := 99
  last_3f : ℚ := 0
  goal_time_diff : ℚ := 0
  goal_sec : ℚ := 0
  deriving DecidableEq

/-- A past-race record (one element of `history_data`).  Field values are the
dict entries under their `get` defaults; `goal_time_diff` and `race_date`
keep the `None` / missing case explicit because the code distinguishes it. -/
structure PastRecord where
  chakujun : Int := 99
  goal_time_diff : Option ℚ := none
  winner_margin : ℚ := 0
  dist : Int := 0
  course : String := ""
  track_type : String := ""
  race_name : String := ""
  race_date : Option Int := none
  dist_text : String := ""
  goal_sec : ℚ := 0
  last_3f : ℚ := 0
  late_4f : ℚ := 0
  position_4c : Int := 0
  field_size : Int := 0
  all_horses_results : List HorseResult := []
  deriving DecidableEq

/-- `RaceScorer.detect_race_grade`. -/
def detect_race_grade (race_name : String) : String × ℚ :=
  if race_name = "" then ("不明", 0.60)
  else
    let name := pyUpper race_name
    if pyIn "G3" name || pyIn "GIII" name || pyIn "JPNIII" name then ("G3", 0.90)
    else if pyIn "G2" name || pyIn "GII" name || pyIn "JPNII" name then ("G2", 0.95)
    else if pyIn "G1" name || pyIn "GI" name || pyIn "JPNI" name then ("G1", 1.00)
    else if pyIn "OP" name || pyIn "オープン" race_name || pyIn "（L）" race_name
        || pyIn "(L)" race_name then ("OP", 0.85)
    else if pyIn "3勝クラス" race_name || pyIn "1600万下" race_name then ("3勝", 0.80)
    else if pyIn "2勝クラス" race_name || pyIn "1000万下" race_name then ("2勝", 0.75)
    else if pyIn "1勝クラス" race_name || pyIn "500万下" race_name then ("1勝", 0.70)
    else if pyIn "未勝利" race_name || pyIn "新馬" race_name then ("未勝利", 0.65)
    else ("不明", 0.60)

/-- Keywords of interregional graded races (`exchange_race_keywords`). -/
def EXCHANGE_RACE_KEYWORDS : List String :=
  ["JpnI", "JpnII", "JpnIII", "Jpn1", "Jpn2", "Jpn3"]

/-- Regional-circuit venues (`local_courses` / `LOCAL_COURSES`). -/
def LOCAL_COURSES : List String :=
  ["大井", "川崎", "船橋", "浦和", "門別", "盛岡", "水沢", "金沢", "笠松",
   "名古屋", "園田", "姫路", "高知", "佐賀"]

/-- `RaceScorer._is_local_race`. -/
def is_local_race (race_name course : String) : Bool :=
  if EXCHANGE_RACE_KEYWORDS.any (fun k => pyIn k race_name) then false
  else LOCAL_COURSES.any (fun lc => pyIn lc course || pyIn lc race_name)

/-- `RaceScorer._get_track_type_by_distance`. -/
def get_track_type_by_distance (distance : Int) (race_name course : String) : String :=
  if pyIn "ダ" race_name || pyIn "ダート" race_name then "ダート"
  else if pyIn "障" race_name then "障害"
  else if distance ≤ 1200 then (if pyIn "ダ" course = false then "芝" else "ダート")
  else if distance ≤ 1600 then "芝"
  else if distance ≥ 3000 then (if pyIn "障" race_name then "障害" else "芝")
  else "芝"

/-- `RaceScorer._get_default_baseline_3f`. -/
def get_default_baseline_3f (distance : Int) (track_type : String) : ℚ :=
  if track_type = "ダート" then
    if distance ≤ 1400 then 37.5
    else if distance ≤ 1800 then 38.0
    else 38.5
  else
    if distance ≤ 1400 then 34.5
    else if distance ≤ 1800 then 35.0
    else if distance ≤ 2200 then 35.5
    else 36.5

/-- Finish-position fallback of the margin coefficient; the `else` branch of
the `time_diff` test that appears verbatim in `_calculate_distance_score` and
`_calculate_course_score`. -/
def perfCoefChakujun (chakujun : Int) : ℚ :=
  if chakujun = 1 then 1.00
  else if chakujun = 2 then 0.85
  else if chakujun = 3 then 0.70
  else if chakujun ≤ 5 then 0.50
  else if chakujun ≤ 9 then 0.30
  else 0.10

/-- Margin coefficient shared verbatim by `_calculate_distance_score` and
`_calculate_course_score` (the `time_diff is not None and time_diff != 0`
branch and its fallback). -/
def perfCoef (chakujun : Int) (time_diff : Option ℚ) : ℚ :=
  match time_diff with
  | some d =>
      if d ≠ 0 then
        let m := |d|
        if m ≤ 0.3 then 1.00
        else if m ≤ 0.6 then 0.85
        else if m ≤ 1.0 then 0.70
        else if m ≤ 1.5 then 0.50
        else if m ≤ 2.5 then 0.30
        else 0.10
      else perfCoefChakujun chakujun
  | none => perfCoefChakujun chakujun

/-- Recency weights `TIME_WEIGHTS = [1.0, 0.8, 0.6, 0.5, 0.4]`. -/
def TIME_WEIGHTS : List ℚ := [1.0, 0.8, 0.6, 0.5, 0.4]

/-- Tabulated `time_decay = 1.0 - idx * 0.15` for `idx = 0..4`. -/
def DECAY_WEIGHTS : List ℚ := [1.0, 0.85, 0.70, 0.55, 0.40]

/-- Distance-difference base points of `_calculate_distance_score`. -/
def distanceBasePts (diff : Int) : ℚ :=
  if diff ≤ 200 then 15.0 - ((diff : ℚ) / 200) * 5.0
  else if diff ≤ 400 then 10.0
  else if diff ≤ 600 then 5.0
  else 0.0

/-- Loop body of `_calculate_distance_score`, over records paired with their
`TIME_WEIGHTS` entry; returns `(weighted_score, weighted_denom)`. -/
def distanceScoreGo (target_distance : Int) : List (PastRecord × ℚ) → ℚ × ℚ
  | [] => (0, 0)
  | (race, time_w) :: rest =>
    let sd := distanceScoreGo target_distance rest
    if race.dist ≤ 0 then sd
    else if race.chakujun = 0 ∨ race.chakujun ≥ 90 then sd
    else
      let diff := |target_distance - race.dist|
      let base_pts := distanceBasePts diff
      let coef := perfCoef race.chakujun race.goal_time_diff
      (sd.1 + base_pts * coef * time_w, sd.2 + time_w)

/-- `RaceScorer._calculate_distance_score`. -/
def calculate_distance_score (history : List PastRecord) (target_distance : Int) : ℚ :=
  if history = [] then 0
  else
    let sd := distanceScoreGo target_distance ((history.take 5).zip TIME_WEIGHTS)
    if sd.2 = 0 then 0
    else pyRound10 (min (sd.1 / sd.2) 15.0)

/-- Loop body of `_calculate_course_score`. -/
def courseScoreGo (target_course target_track_type : String) :
    List (PastRecord × ℚ) → ℚ × ℚ
  | [] => (0, 0)
  | (race, time_w) :: rest =>
    let sd := courseScoreGo target_course target_track_type rest
    if race.chakujun = 0 ∨ race.chakujun ≥ 90 then sd
    else
      let same_course := race.course = target_course
      let same_track := target_track_type = "" ∨ race.track_type = ""
        ∨ race.track_type = target_track_type
      let base_pts : ℚ :=
        if same_course ∧ same_track then 15.0
        else if same_course ∧ ¬ same_track then 8.0
        else 0.0
      let coef := perfCoef race.chakujun race.goal_time_diff
      (sd.1 + base_pts * coef * time_w, sd.2 + time_w)

/-- `RaceScorer._calculate_course_score`. -/
def calculate_course_score (history : List PastRecord) (target_course : String)
    (target_track_type : String) : ℚ :=
  if history = [] then 0
  else
    let sd := courseScoreGo target_course target_track_type ((history.take 5).zip TIME_WEIGHTS)
    if sd.2 = 0 then 0
    else pyRound10 (min (sd.1 / sd.2) 15.0)

/-- Python `horse_sex in ['牝', '牝馬', 'メス', 'F', 'f']`. -/
def sexIsFemale (sex : String) : Bool :=
  ["牝", "牝馬", "メス", "F", "f"].any (fun s => sex = s)

/-- `RaceScorer._calculate_weight_penalty`. -/
def calculate_weight_penalty (current_weight : ℚ) (horse_age : Option Int)
    (horse_sex : Option String) : ℚ :=
  if current_weight ≤ 0 then 0
  else
    let baseline_weight : ℚ :=
      match horse_age, horse_sex with
      | some age, some sex =>
        if age ≥ 4 then (if sexIsFemale sex then 56.0 else 58.0)
        else if age = 3 then (if sexIsFemale sex then 55.0 else 57.0)
        else if age = 2 then 55.0
        else 55.0
      | _, _ => 58.0
    pyRound10 (-(current_weight - baseline_weight))

/-- `RaceScorer._calculate_layoff_penalty`.  The code reads the ambient
`datetime.now()`; it is made explicit here as `today`.  `none` for
`race_date` covers both the empty string and an unparseable date (whose
exception the code swallows, returning 0). -/
def calculate_layoff_penalty (today : Int) (history : List PastRecord) : ℚ :=
  match history with
  | [] => 0
  | last_race :: _ =>
    match last_race.race_date with
    | none => 0
    | some race_date =>
      let days_since : Int := today - race_date
      let months_since : ℚ := (days_since : ℚ) / 30.44
      if days_since ≤ 120 then 0.0
      else if months_since ≤ 4 then -4.0
      else if months_since ≤ 5 then -6.0
      else if months_since ≤ 6 then -8.0
      else if months_since ≤ 7 then -10.0
      else if months_since ≤ 8 then -11.0
      else if months_since ≤ 9 then -12.0
      else if months_since ≤ 10 then -14.0
      else if months_since ≤ 11 then -16.0
      else -20.0

/-- Per-start bonus table of `_calculate_grade_race_bonus`. -/
def gradeBonusPts (grade : String) (chakujun : Int) : ℚ :=
  if grade = "G1" then
    if chakujun = 1 then 10.0 else if chakujun = 2 ∨ chakujun = 3 then 8.0 else 5.0
  else if grade = "G2" then
    if chakujun = 1 then 7.0 else if chakujun = 2 ∨ chakujun = 3 then 5.0 else 3.0
  else if grade = "G3" then
    if chakujun = 1 then 5.0 else if chakujun = 2 ∨ chakujun = 3 then 3.0 else 2.0
  else 0.0

/-- Loop body of `_calculate_grade_race_bonus`, over records paired with
their `DECAY_WEIGHTS` entry. -/
def gradeRaceBonusGo : List (PastRecord × ℚ) → ℚ
  | [] => 0
  | (race, decay) :: rest =>
    let s := gradeRaceBonusGo rest
    if race.chakujun = 0 ∨ race.chakujun ≥ 90 then s
    else
      let grade := (detect_race_grade race.race_name).1
      if grade ≠ "G1" ∧ grade ≠ "G2" ∧ grade ≠ "G3" then s
      else s + gradeBonusPts grade race.chakujun * decay

/-- `RaceScorer._calculate_grade_race_bonus`. -/
def calculate_grade_race_bonus (history : List PastRecord) : ℚ :=
  pyRound10 (gradeRaceBonusGo ((history.take 5).zip DECAY_WEIGHTS))

/-- `RaceScorer.count_consecutive_big_losses`: leading records whose
winner-time-gap is present and at/above `threshold`; a missing gap (`None`)
or a smaller gap breaks the count. -/
def count_consecutive_big_losses (history : List PastRecord) (threshold : ℚ) : Nat :=
  match history with
  | [] => 0
  | race :: rest =>
    match race.goal_time_diff with
    | some diff =>
      if diff ≥ threshold then 1 + count_consecutive_big_losses rest threshold else 0
    | none => 0

/-- `RaceScorer._should_reduce_big_loss_penalty`: the big loss at
`loss_index` is excused when it immediately follows a ≥600m distance change,
a non-finish (`chakujun = 0`), or a ≥120-day layoff.  All three checks need a
prior record; the date check needs both dates parseable.  (The source reads
the prior record's finish position with `get('chakujun', 0)` — default 0
here, unlike the default 99 used everywhere else — so a record whose key is
absent would be treated as a non-finish there; the typed model carries the
field explicitly, so the per-site default difference does not arise.) -/
def should_reduce_big_loss_penalty (history : List PastRecord) (loss_index : Nat) : Bool :=
  match history.drop loss_index with
  | [] => false
  | loss_race :: rest =>
    match rest with
    | [] => false
    | prev_race :: _ =>
      if |loss_race.dist - prev_race.dist| ≥ 600 then true
      else if prev_race.chakujun = 0 then true
      else
        match loss_race.race_date, prev_race.race_date with
        | some loss_date, some prev_date => loss_date - prev_date ≥ 120
        | _, _ => false

/-- Tier map `{0: 0, 1: -3, 2: -8, ≥3: -15}` of
`_calculate_consecutive_big_loss_penalty`. -/
def lossTierPenalty (reduced_count : Nat) : ℚ :=
  if reduced_count = 0 then 0.0
  else if reduced_count = 1 then -3.0
  else if reduced_count = 2 then -8.0
  else -15.0

/-- The `for i in range(consecutive_losses)` loop of
`_calculate_consecutive_big_loss_penalty`: count scan positions from `i`
upward, at most `fuel` of them, stopping (with a `break`) at the first
excused loss. -/
def reducedLossCount (history : List PastRecord) (i : Nat) : Nat → Nat
  | 0 => 0
  | fuel + 1 =>
    if should_reduce_big_loss_penalty history i then 0
    else 1 + reducedLossCount history (i + 1) fuel

/-- The effective (post-reduction) loss count the code derives: scan
positions `0, 1, …` up to the consecutive big-loss count, stopping at the
first excused one. -/
def effectiveLossCount (history : List PastRecord) : Nat :=
  reducedLossCount history 0 (count_consecutive_big_losses history 1.1)

/-- `RaceScorer._calculate_consecutive_big_loss_penalty`. -/
def calculate_consecutive_big_loss_penalty (history : List PastRecord) : ℚ :=
  if history = [] then 0
  else
    let consecutive_losses := count_consecutive_big_losses history 1.1
    if consecutive_losses = 0 then 0
    else lossTierPenalty (reducedLossCount history 0 consecutive_losses)

/-- The margin used by `_calculate_winning_streak_bonus`:
`winner_margin`, falling back to `abs(goal_time_diff or 0)` when it is 0.
(When `winner_margin` or `goal_time_diff` is Python `None` the real code
raises instead; see the dynamic model below.) -/
def streakMargin (race : PastRecord) : ℚ :=
  if race.winner_margin = 0 then |race.goal_time_diff.getD 0| else race.winner_margin

/-- Recency weights of the streak bonus, `[1.0, 0.7, 0.5]`. -/
def STREAK_WEIGHTS : List ℚ := [1.0, 0.7, 0.5]

/-- Loop body of `_calculate_winning_streak_bonus`: accumulate while the
record is a win, break at the first non-win. -/
def winningStreakGo : List (PastRecord × ℚ) → ℚ
  | [] => 0
  | (race, w) :: rest =>
    if race.chakujun ≠ 1 then 0
    else
      let margin := streakMargin race
      let pts : ℚ := if margin ≥ 0.5 then 4.0 else if margin ≥ 0.2 then 2.5 else 1.5
      pts * w + winningStreakGo rest

/-- `RaceScorer._calculate_winning_streak_bonus`. -/
def calculate_winning_streak_bonus (history : List PastRecord) : ℚ :=
  if history = [] then 0
  else pyRound10 (min (winningStreakGo ((history.take 3).zip STREAK_WEIGHTS)) 10.0)

/-! ### Dynamic (Python-valued) model of the winning-streak bonus

The typed model above assumes the two margin fields are numeric.  The real
code reads them with `race.get('winner_margin', 0.0)` and
`race.get('goal_time_diff', 0.0)`, so a field that is *present with value
`None`* flows into `margin == 0.0` (false for `None`), `margin >= 0.5`
(a `TypeError` for `None`) and `float(...)` (a `TypeError` for `None`).
This model keeps those Python semantics to exhibit the exception. -/

/-- A Python dict entry for a numeric field: missing, `None`, or a number. -/
inductive PyVal where
  | absent
  | pynone
  | num (x : ℚ)
  deriving DecidableEq

/-- `race.get(key, dflt)` for a numeric field: `some` is a float, `none` is
Python `None`. -/
def pyGetNum (v : PyVal) (dflt : ℚ) : Option ℚ :=
  match v with
  | .absent => some dflt
  | .pynone => none
  | .num x => some x

/-- Python `v == 0.0`; `None == 0.0` is `False`, not an error. -/
def pyEqZero (v : Option ℚ) : Bool :=
  match v with
  | some x => x = 0
  | none => false

/-- Python `v >= b` for a float `b`; raises `TypeError` when `v` is `None`. -/
def pyGeNum (v : Option ℚ) (b : ℚ) : Except String Bool :=
  match v with
  | some x => .ok (x ≥ b)
  | none => .error "TypeError"

/-- Python `abs(float(v))`; raises `TypeError` when `v` is `None`. -/
def pyAbsFloat (v : Option ℚ) : Except String ℚ :=
  match v with
  | some x => .ok |x|
  | none => .error "TypeError"

/-- A history record carrying the raw dict entries of the two margin
fields. -/
structure DynRecord where
  chakujun : Int := 99
  winner_margin : PyVal := .absent
  goal_time_diff : PyVal := .absent
  deriving DecidableEq

/-- Loop body of `_calculate_winning_streak_bonus` under Python value
semantics for `winner_margin` and `goal_time_diff`. -/
def winningStreakGoDyn : List (DynRecord × ℚ) → Except String ℚ
  | [] => .ok 0
  | (race, w) :: rest =>
    if race.chakujun ≠ 1 then .ok 0
    else
      let m0 := pyGetNum race.winner_margin 0
      let marginE : Except String (Option ℚ) :=
        if pyEqZero m0 then (pyAbsFloat (pyGetNum race.goal_time_diff 0)).map some
        else .ok m0
      match marginE with
      | .error e => .error e
      | .ok margin =>
        match pyGeNum margin 0.5 with
        | .error e => .error e
        | .ok b1 =>
          let ptsE : Except String ℚ :=
            if b1 then .ok 4.0
            else
              match pyGeNum margin 0.2 with
              | .error e => .error e
              | .ok b2 => .ok (if b2 then 2.5 else 1.5)
          match ptsE, winningStreakGoDyn rest with
          | .ok pts, .ok s => .ok (pts * w + s)
          | .error e, _ => .error e
          | .ok _, .error e => .error e

/-- `_calculate_winning_streak_bonus` under Python value semantics:
`.error` marks an uncaught exception (there is no `try` around this call in
`calculate_total_score`, so it would propagate to the caller). -/
def calculate_winning_streak_bonus_dyn (history : List DynRecord) : Except String ℚ :=
  if history = [] then .ok 0
  else (winningStreakGoDyn ((history.take 3).zip STREAK_WEIGHTS)).map
    (fun b => pyRound10 (min b 10.0))

/-! ### Debut-to-second-start (shinba) boost -/

/-- `last_3f` values of the finishers used for the race average
(`valid_3f = [h.get('last_3f', 0) for h in all_horses_results if ... > 0]`). -/
def validLast3f (results : List HorseResult) : List ℚ :=
  (results.filter (fun h => h.last_3f > 0)).map (fun h => h.last_3f)

/-- Python `sum(xs) / len(xs)` (callers guard against the empty list). -/
def listMean (xs : List ℚ) : ℚ := xs.sum / xs.length

/-- Finish-position base bonus of `_calculate_shinba_second_race_boost`. -/
def shinbaBaseBonus (chakujun : Int) : ℚ :=
  if chakujun = 1 then 3.0
  else if chakujun = 2 then 1.5
  else if chakujun = 3 then 0.5
  else 0.0

/-- The winner-time-gap used by the shinba boost:
`abs(my_goal_time_diff) if my_goal_time_diff else 0.0` (both `None` and
`0.0` are falsy). -/
def shinbaMargin (race : PastRecord) : ℚ :=
  match race.goal_time_diff with
  | some d => if d ≠ 0 then |d| else 0
  | none => 0

/-- `RaceScorer._calculate_shinba_second_race_boost`. -/
def calculate_shinba_second_race_boost (history : List PastRecord) : ℚ :=
  match history with
  | [first_race] =>
    if pyIn "新馬" first_race.race_name then
      let boost0 := shinbaBaseBonus first_race.chakujun
      let my_last_3f := first_race.last_3f
      let all_results := first_race.all_horses_results
      let margin := shinbaMargin first_race
      let boost1 :=
        if my_last_3f > 0 ∧ all_results ≠ [] then
          let valid_3f := validLast3f all_results
          if valid_3f ≠ [] then
            let race_avg_3f := listMean valid_3f
            let speed_diff := race_avg_3f - my_last_3f
            if speed_diff ≥ 0.5 then
              boost0 + (if margin ≥ 1.1 then 0.0 else if margin ≥ 0.7 then 1.0 else 2.0)
            else boost0
          else boost0
        else boost0
      let boost2 :=
        if first_race.position_4c > 0 ∧ first_race.field_size > 0 then
          if (first_race.position_4c : ℚ) / (first_race.field_size : ℚ) > 0.50 then
            if my_last_3f > 0 ∧ all_results ≠ [] then
              let valid_3f := validLast3f all_results
              if valid_3f ≠ [] then
                if my_last_3f < listMean valid_3f then
                  if margin ≥ 1.1 then boost1 else boost1 + 1.5
                else boost1
              else boost1
            else boost1
          else boost1
        else boost1
      boost2
    else 0
  | _ => 0

/-! ### Last-3F relative score -/

/-- Base-point tiers of `calculate_last_3f_relative_score` (stricter for
distances at/below 1400m). -/
def last3fBasePoints (distance : Int) (speed_diff : ℚ) : ℚ :=
  if distance ≤ 1400 then
    if speed_diff ≥ 1.3 then 15.0
    else if speed_diff ≥ 0.8 then 12.0
    else if speed_diff ≥ 0.4 then 8.0
    else if speed_diff ≥ 0.0 then 5.0
    else -3.0
  else
    if speed_diff ≥ 1.5 then 15.0
    else if speed_diff ≥ 1.0 then 12.0
    else if speed_diff ≥ 0.5 then 8.0
    else if speed_diff ≥ 0.0 then 5.0
    else -3.0

/-- Finish-position bonus of `calculate_last_3f_relative_score` (more
generous for 4th-5th in graded races). -/
def last3fFinishBonus (grade : String) (chakujun : Int) : ℚ :=
  if grade = "G1" ∨ grade = "G2" ∨ grade = "G3" then
    if chakujun = 1 then 3.0
    else if chakujun = 2 ∨ chakujun = 3 then 2.0
    else if chakujun = 4 ∨ chakujun = 5 then 1.5
    else 0.0
  else
    if chakujun = 1 then 3.0
    else if chakujun = 2 then 2.0
    else if chakujun = 3 then 1.0
    else 0.0

/-- Reference last-3F time of one record: mean of the finishers within a
2.0s winner-gap window of the horse, with the fallbacks of the source (race
mean, then a course-free default). -/
def race_avg_3f_for (race : PastRecord) (race_track_type : String) : ℚ :=
  let dflt := get_default_baseline_3f race.dist race_track_type
  if race.all_horses_results = [] then dflt
  else
    let goal_times :=
      (race.all_horses_results.filter (fun h => h.goal_time_diff ≠ 0)).map
        (fun h => h.goal_time_diff)
    if goal_times = [] then dflt
    else
      match race.all_horses_results.find? (fun h => h.last_3f = race.last_3f) with
      | none =>
        let valid := validLast3f race.all_horses_results
        if valid ≠ [] then listMean valid else dflt
      | some me =>
        let nearby :=
          (race.all_horses_results.filter
            (fun h => |h.goal_time_diff - me.goal_time_diff| ≤ 2.0 ∧ h.last_3f > 0)).map
            (fun h => h.last_3f)
        if nearby ≠ [] then listMean nearby
        else
          let valid := validLast3f race.all_horses_results
          if valid ≠ [] then listMean valid else dflt

/-- Loop body of `calculate_last_3f_relative_score`, over records paired
with their `time_decay` entry. -/
def last3fGo (target_track_type : String) : List (PastRecord × ℚ) → ℚ
  | [] => 0
  | (race, decay) :: rest =>
    let s := last3fGo target_track_type rest
    if race.chakujun = 0 ∨ race.chakujun ≥ 90 then s
    else if race.dist ≤ 0 ∨ race.last_3f ≤ 0 then s
    else
      let race_track_type :=
        if race.track_type = "" ∨ race.track_type = "不明" then
          get_track_type_by_distance race.dist race.race_name race.course
        else race.track_type
      let track_type_mismatch := race_track_type ≠ target_track_type
      let is_local := is_local_race race.race_name race.course
      let race_avg_3f := race_avg_3f_for race race_track_type
      let speed_diff := race_avg_3f - race.last_3f
      let base_points := last3fBasePoints race.dist speed_diff
      let gr := detect_race_grade race.race_name
      let finish_bonus := last3fFinishBonus gr.1 race.chakujun
      let points :=
        if speed_diff > 0 ∧ finish_bonus > 0 then base_points + finish_bonus * 5.0
        else if speed_diff > 0 then base_points * 0.5
        else if finish_bonus > 0 then finish_bonus * 3.0
        else -3.0
      let reliability := gr.2 * (if is_local then 0.4 else 1.0)
        * (if track_type_mismatch then 0.3 else 1.0)
      s + points * reliability * decay

/-- `RaceScorer.calculate_last_3f_relative_score` (its `target_course`,
`target_distance` and `target_baba` parameters are unused in the body, as in
the source). -/
def calculate_last_3f_relative_score (history : List PastRecord)
    (target_track_type : String) (target_course : String) (target_distance : Int)
    (target_baba : String) : ℚ :=
  pyRound10 (last3fGo target_track_type ((history.take 5).zip DECAY_WEIGHTS))

/-! ### Course-record comparison score -/

/-- `CourseAnalyzer.detect_track_variant`. -/
def detect_track_variant (course : String) (distance : Int) (distance_text : String) :
    String :=
  if pyIn "外" distance_text || pyIn "外回り" distance_text then course ++ "外"
  else if pyIn "内" distance_text || pyIn "内回り" distance_text then course ++ "内"
  else if course = "京都" then
    if distance = 2200 ∨ distance = 2400 ∨ distance = 3000 ∨ distance = 3200 then "京都外"
    else "京都内"
  else if course = "阪神" then
    if distance ≤ 1400 then "阪神内"
    else if distance = 2200 then "阪神内"
    else if distance = 2400 then "阪神外"
    else "阪神外"
  else if course = "新潟" then
    if distance ≤ 1600 then "新潟内"
    else if distance ≥ 1800 then "新潟外"
    else "新潟内"
  else course

/-- `CourseAnalyzer.COURSE_RECORDS.get((variant, dist), 0.0)`: course-record
times in seconds, 0 when the pair is untabulated. -/
def COURSE_RECORDS (variant : String) (dist : Int) : ℚ :=
  if variant = "東京" then
    if dist = 1400 then 79.8 else if dist = 1600 then 90.5 else if dist = 1800 then 103.5
    else if dist = 2000 then 116.1 else if dist = 2400 then 141.2
    else if dist = 3400 then 208.4 else 0
  else if variant = "中山" then
    if dist = 1200 then 67.3 else if dist = 1600 then 91.7 else if dist = 1800 then 106.1
    else if dist = 2000 then 118.0 else if dist = 2200 then 131.0
    else if dist = 2500 then 150.7 else 0
  else if variant = "阪神外" then
    if dist = 1600 then 91.3 else if dist = 1800 then 103.2 else if dist = 2000 then 115.5
    else if dist = 2400 then 140.9 else 0
  else if variant = "阪神内" then
    if dist = 1200 then 67.4 else if dist = 1400 then 79.3 else if dist = 1800 then 106.0
    else if dist = 2000 then 118.0 else if dist = 2200 then 131.5 else 0
  else if variant = "京都外" then
    if dist = 1600 then 90.5 else if dist = 1800 then 103.5 else if dist = 2000 then 116.8
    else if dist = 2200 then 130.5 else if dist = 2400 then 143.5
    else if dist = 3000 then 179.0 else if dist = 3200 then 192.5 else 0
  else if variant = "京都内" then
    if dist = 1200 then 68.5 else if dist = 1400 then 81.0 else if dist = 1600 then 92.5
    else if dist = 1800 then 105.5 else if dist = 2000 then 118.5 else 0
  else if variant = "新潟外" then
    if dist = 1600 then 90.5 else if dist = 1800 then 104.5 else if dist = 2000 then 117.5
    else if dist = 2200 then 130.5 else if dist = 2400 then 144.0 else 0
  else if variant = "新潟内" then
    if dist = 1000 then 55.5 else if dist = 1200 then 67.5 else if dist = 1400 then 81.5
    else if dist = 2000 then 118.5 else 0
  else if variant = "中京" then
    if dist = 1200 then 68.3 else if dist = 1400 then 81.5 else if dist = 1600 then 93.5
    else if dist = 2000 then 119.3 else 0
  else if variant = "小倉" then
    if dist = 1200 then 67.9 else if dist = 1800 then 106.5 else if dist = 2000 then 119.5
    else if dist = 2600 then 159.5 else 0
  else if variant = "福島" then
    if dist = 1200 then 68.0 else if dist = 1700 then 101.8 else if dist = 1800 then 107.0
    else if dist = 2000 then 119.8 else if dist = 2600 then 160.0 else 0
  else if variant = "札幌" then
    if dist = 1200 then 68.6 else if dist = 1500 then 89.0 else if dist = 1800 then 107.2
    else if dist = 2000 then 120.0 else if dist = 2600 then 160.5 else 0
  else if variant = "函館" then
    if dist = 1200 then 68.3 else if dist = 1800 then 107.5 else if dist = 2000 then 120.2
    else if dist = 2600 then 161.0 else 0
  else 0

/-- Gap-to-record point curve of `_calculate_course_record_score`. -/
def crPts (diff : ℚ) : ℚ :=
  if diff ≤ 0 then 10.0
  else if diff ≤ 1.0 then 10.0 - diff * 2.0
  else if diff ≤ 2.0 then 8.0 - (diff - 1.0) * 2.0
  else if diff ≤ 4.0 then 6.0 - (diff - 2.0) * 2.5
  else 0.0

/-- Recency weights of the CR score, `[1.0, 0.7, 0.5, 0.4, 0.3]`. -/
def CR_WEIGHTS : List ℚ := [1.0, 0.7, 0.5, 0.4, 0.3]

/-- The `goal_sec` used by the CR score: the record's own, or (scraper-v5
compatibility) the winner's `goal_sec` plus the absolute winner gap. -/
def crGoalSec (race : PastRecord) : ℚ :=
  if race.goal_sec ≤ 0 then
    let first_sec :=
      ((race.all_horses_results.find? (fun h => h.chakujun = 1)).map
        (fun h => h.goal_sec)).getD 0
    if first_sec > 0 then
      match race.goal_time_diff with
      | some gtd => first_sec + |gtd|
      | none => if race.chakujun = 1 then first_sec else race.goal_sec
    else race.goal_sec
  else race.goal_sec

/-- Loop body of `_calculate_course_record_score`; returns the accumulated
bonus and the number of evaluated records. -/
def crGo (target_distance : Int) (target_track_type : String) :
    List (PastRecord × ℚ) → ℚ × Nat
  | [] => (0, 0)
  | (race, time_w) :: rest =>
    let bn := crGo target_distance target_track_type rest
    if race.chakujun = 0 ∨ race.chakujun ≥ 90 then bn
    else
      let goal_sec := crGoalSec race
      if race.track_type ≠ target_track_type then bn
      else
        let dist_diff := |race.dist - target_distance|
        if dist_diff > 200 then bn
        else if goal_sec ≤ 0 then bn
        else
          let race_variant := detect_track_variant race.course race.dist race.dist_text
          let cr0 := COURSE_RECORDS race_variant race.dist
          let cr := if cr0 ≤ 0 then COURSE_RECORDS race.course race.dist else cr0
          if cr ≤ 0 then bn
          else
            let pts := crPts (goal_sec - cr)
            let dist_penalty : ℚ := if dist_diff = 200 then 0.8 else 1.0
            (bn.1 + pts * (time_w * dist_penalty), bn.2 + 1)

/-- `RaceScorer._calculate_course_record_score` (its `target_course`
parameter is unused in the body, as in the source). -/
def calculate_course_record_score (history : List PastRecord) (target_course : String)
    (target_distance : Int) (target_track_type : String) : ℚ :=
  if history = [] ∨ target_track_type = "ダート" then 0
  else
    let bn := crGo target_distance target_track_type ((history.take 5).zip CR_WEIGHTS)
    if bn.2 = 0 then 0
    else pyRound10 (min bn.1 10.0)

/-! ### Late-4F score -/

/-- Deviation multiplier of `_calculate_late_4f_score`. -/
def late4fMultiplier (d : ℚ) : ℚ :=
  if d ≥ 3.5 then 1.80
  else if d ≥ 2.5 then 1.50
  else if d ≥ 1.5 then 1.30
  else if d ≥ 0.7 then 1.15
  else if d ≥ -0.5 then 1.00
  else if d ≥ -2.0 then 0.85
  else 0.65

/-- Grade reliability map of `_calculate_late_4f_score` (`reliability_map`
with default 0.7). -/
def late4fReliability (grade : String) : ℚ :=
  if grade = "G1" then 1.0 else if grade = "G2" then 0.95 else if grade = "G3" then 0.9
  else if grade = "JpnI" then 1.0 else if grade = "JpnII" then 0.95
  else if grade = "JpnIII" then 0.9 else if grade = "OP" then 0.85 else 0.7

/-- Finish-position factor of `_calculate_late_4f_score`. -/
def late4fFinishBonus (chakujun : Int) : ℚ :=
  if chakujun = 1 then 1.0
  else if chakujun ≤ 3 then 0.9
  else if chakujun ≤ 5 then 0.75
  else if chakujun ≤ 10 then 0.5
  else 0.3

/-- Loop body of `_calculate_late_4f_score` at a fixed target baseline. -/
def late4fGo (baseline4f : ℚ) : List (PastRecord × ℚ) → ℚ
  | [] => 0
  | (race, decay) :: rest =>
    let s := late4fGo baseline4f rest
    let race_track_type :=
      if race.track_type = "" ∨ race.track_type = "不明" then
        get_track_type_by_distance race.dist race.race_name race.course
      else race.track_type
    if race_track_type ≠ "芝" ∨ race.dist < 1800 then s
    else if is_local_race race.race_name race.course then s
    else if race.late_4f ≤ 0 ∧ race.last_3f ≤ 0 then s
    else
      let late_4f :=
        if race.late_4f ≤ 0 then race.last_3f * (4.0 / 3.0) + 0.4 else race.late_4f
      let diff_from_baseline := baseline4f - late_4f
      let points := diff_from_baseline * 10.0 * late4fMultiplier diff_from_baseline
      let reliability := late4fReliability (detect_race_grade race.race_name).1
      s + points * reliability * decay * late4fFinishBonus race.chakujun

/-- `RaceScorer._calculate_late_4f_score`. -/
def calculate_late_4f_score (history : List PastRecord) (target_distance : Int)
    (target_track_type : String) : ℚ :=
  if target_track_type ≠ "芝" ∨ target_distance < 1800 then 0
  else
    let baseline4f : ℚ :=
      if target_distance ≤ 2000 then 47.2
      else if target_distance ≤ 2400 then 47.8
      else 48.3
    pyRound10 (late4fGo baseline4f ((history.take 5).zip DECAY_WEIGHTS))

/-! ### Danger flags -/

/-- The `flags` dict of `_check_danger_flags`. -/
structure DangerFlags where
  local_to_jra : Bool := false
  track_change : Bool := false
  long_layoff : Bool := false
  deriving DecidableEq

/-- `RaceScorer._check_danger_flags` (its `target_course` and
`target_track_type` parameters are unused in the body, as in the source). -/
def check_danger_flags (history : List PastRecord) (target_course : String)
    (target_track_type : String) : DangerFlags :=
  match history with
  | [] => {}
  | last_race :: _ =>
    let recent_races := history.take 5
    let local_count :=
      (recent_races.filter (fun r => is_local_race r.race_name r.course)).length
    if local_count ≥ 4 then
      { local_to_jra := is_local_race last_race.race_name last_race.course }
    else {}

/-! ### Running-style analysis (pace prediction and style bonus) -/

/-- Straight lengths of `RunningStyleAnalyzer.COURSE_CHARACTERISTICS`. -/
def courseStraight (course : String) : Option Int :=
  if course = "東京" then some 525
  else if course = "京都" then some 403
  else if course = "阪神" then some 356
  else if course = "中山" then some 310
  else if course = "新潟" then some 659
  else if course = "小倉" then some 293
  else if course = "福島" then some 292
  else if course = "函館" then some 262
  else if course = "札幌" then some 266
  else if course = "中京" then some 412
  else none

/-- Favoured styles of `RunningStyleAnalyzer.COURSE_CHARACTERISTICS`
(`.get('favor', [])`). -/
def courseFavor (course : String) : List String :=
  if course = "東京" then ["差し", "追込"]
  else if course = "京都" then ["先行", "差し"]
  else if course = "阪神" then ["先行"]
  else if course = "中山" then ["逃げ", "先行"]
  else if course = "新潟" then ["差し", "追込"]
  else if course = "小倉" then ["逃げ", "先行"]
  else if course = "福島" then ["逃げ", "先行"]
  else if course = "函館" then ["先行"]
  else if course = "札幌" then ["先行"]
  else if course = "中京" then ["差し"]
  else []

/-- The aggregated style info consumed by the total score
(`running_style_info.get('style', '')`, `.get('confidence', 0.0)`). -/
structure StyleInfo where
  style : String := ""
  confidence : ℚ := 0
  deriving DecidableEq

/-- The field-wide pace prediction (`race_pace_prediction.get('pace',
'ミドル')` plus the other returned entries). -/
structure PacePrediction where
  pace : String := "ミドル"
  front_ratio : ℚ := 0.30
  straight_length : Option Int := none
  deriving DecidableEq

/-- `RunningStyleAnalyzer.predict_race_pace`.  An entrant is its aggregated
style string (`h.get('style', '不明')`); the `field_size` parameter is
unused in the body, as in the source. -/
def predict_race_pace (horses : List String) (field_size : Int) (course : String) :
    PacePrediction :=
  if horses = [] then { pace := "ミドル", front_ratio := 0.30, straight_length := none }
  else
    let front_runners := (horses.filter (fun s => s = "逃げ")).length
      + (horses.filter (fun s => s = "先行")).length
    let straight_length := (courseStraight course).getD 400
    if straight_length ≥ 500 then
      if front_runners ≤ 2 then
        { pace := "スロー", front_ratio := 0.30, straight_length := some straight_length }
      else if front_runners ≤ 4 then
        { pace := "ミドル", front_ratio := 0.45, straight_length := some straight_length }
      else
        { pace := "ハイ", front_ratio := 0.55, straight_length := some straight_length }
    else if straight_length ≤ 320 then
      if front_runners ≤ 1 then
        { pace := "スロー", front_ratio := 0.45, straight_length := some straight_length }
      else if front_runners ≤ 3 then
        { pace := "ミドル", front_ratio := 0.55, straight_length := some straight_length }
      else
        { pace := "ハイ", front_ratio := 0.65, straight_length := some straight_length }
    else
      if front_runners ≤ 2 then
        { pace := "スロー", front_ratio := 0.35, straight_length := some straight_length }
      else if front_runners ≤ 4 then
        { pace := "ミドル", front_ratio := 0.50, straight_length := some straight_length }
      else
        { pace := "ハイ", front_ratio := 0.60, straight_length := some straight_length }

/-- `bonus_map` of `calculate_style_match_bonus`
(`bonus_map.get(pace, ...).get(style, 0.0)`). -/
def styleBonusMap (pace style : String) : ℚ :=
  if pace = "スロー" then
    if style = "逃げ" then 15.0 else if style = "先行" then 12.0
    else if style = "差し" then 10.0 else if style = "追込" then 8.0 else 0.0
  else if pace = "ミドル" then
    if style = "逃げ" then 10.0 else if style = "先行" then 12.0
    else if style = "差し" then 12.0 else if style = "追込" then 10.0 else 0.0
  else if pace = "ハイ" then
    if style = "逃げ" then 5.0 else if style = "先行" then 8.0
    else if style = "差し" then 15.0 else if style = "追込" then 18.0 else 0.0
  else 0.0

/-- `RunningStyleAnalyzer.calculate_style_match_bonus` (its `distance`
parameter is unused in the body, as in the source). -/
def calculate_style_match_bonus (style pace course : String) (distance : Int) : ℚ :=
  let base_bonus := styleBonusMap pace style
  if (courseFavor course).any (fun s => s = style) then base_bonus * 1.2
  else base_bonus

/-- `style_weights[dist].get(style, 1.0)`. -/
def styleWeightRow (row : List (String × ℚ)) (style : String) : ℚ :=
  match row.find? (fun p => p.1 = style) with
  | some p => p.2
  | none => 1.0

/-- `RunningStyleAnalyzer.COURSE_DISTANCE_STYLE_WEIGHTS`, keyed by course
then distance (rows in the source's ascending key order). -/
def COURSE_DISTANCE_STYLE_WEIGHTS (course : String) : List (Int × List (String × ℚ)) :=
  if course = "東京" then
    [(1400, [("逃げ", 0.08), ("先行", 0.12), ("差し", 0.20), ("追込", 0.15)]),
     (1600, [("逃げ", 0.05), ("先行", 0.10), ("差し", 0.20), ("追込", 0.15)]),
     (1800, [("逃げ", 0.03), ("先行", 0.08), ("差し", 0.15), ("追込", 0.12)]),
     (2000, [("逃げ", 0.03), ("先行", 0.08), ("差し", 0.15), ("追込", 0.12)]),
     (2400, [("逃げ", 0.02), ("先行", 0.05), ("差し", 0.10), ("追込", 0.08)])]
  else if course = "中山" then
    [(1200, [("逃げ", 0.20), ("先行", 0.20), ("差し", 0.10), ("追込", 0.05)]),
     (1600, [("逃げ", 0.15), ("先行", 0.20), ("差し", 0.10), ("追込", 0.05)]),
     (1800, [("逃げ", 0.12), ("先行", 0.18), ("差し", 0.12), ("追込", 0.08)]),
     (2000, [("逃げ", 0.12), ("先行", 0.18), ("差し", 0.12), ("追込", 0.08)]),
     (2500, [("逃げ", 0.08), ("先行", 0.12), ("差し", 0.10), ("追込", 0.08)])]
  else if course = "新潟" then
    [(1600, [("逃げ", 0.03), ("先行", 0.08), ("差し", 0.20), ("追込", 0.18)]),
     (1800, [("逃げ", 0.03), ("先行", 0.08), ("差し", 0.18), ("追込", 0.15)]),
     (2000, [("逃げ", 0.02), ("先行", 0.05), ("差し", 0.15), ("追込", 0.12)])]
  else if course = "京都" then
    [(1400, [("逃げ", 0.10), ("先行", 0.15), ("差し", 0.15), ("追込", 0.10)]),
     (1600, [("逃げ", 0.08), ("先行", 0.15), ("差し", 0.15), ("追込", 0.10)]),
     (1800, [("逃げ", 0.05), ("先行", 0.12), ("差し", 0.12), ("追込", 0.08)]),
     (2000, [("逃げ", 0.05), ("先行", 0.12), ("差し", 0.12), ("追込", 0.08)])]
  else if course = "阪神" then
    [(1400, [("逃げ", 0.12), ("先行", 0.18), ("差し", 0.12), ("追込", 0.08)]),
     (1600, [("逃げ", 0.10), ("先行", 0.15), ("差し", 0.12), ("追込", 0.08)]),
     (1800, [("逃げ", 0.08), ("先行", 0.12), ("差し", 0.10), ("追込", 0.08)]),
     (2000, [("逃げ", 0.08), ("先行", 0.12), ("差し", 0.10), ("追込", 0.08)])]
  else if course = "小倉" then
    [(1200, [("逃げ", 0.20), ("先行", 0.20), ("差し", 0.10), ("追込", 0.05)]),
     (1700, [("逃げ", 0.15), ("先行", 0.18), ("差し", 0.10), ("追込", 0.05)]),
     (1800, [("逃げ", 0.12), ("先行", 0.15), ("差し", 0.10), ("追込", 0.05)]),
     (2000, [("逃げ", 0.10), ("先行", 0.12), ("差し", 0.10), ("追込", 0.08)])]
  else if course = "中京" then
    [(1200, [("逃げ", 0.12), ("先行", 0.15), ("差し", 0.15), ("追込", 0.10)]),
     (1400, [("逃げ", 0.10), ("先行", 0.12), ("差し", 0.18), ("追込", 0.12)]),
     (1600, [("逃げ", 0.08), ("先行", 0.10), ("差し", 0.18), ("追込", 0.12)]),
     (1800, [("逃げ", 0.05), ("先行", 0.08), ("差し", 0.15), ("追込", 0.10)]),
     (2000, [("逃げ", 0.05), ("先行", 0.08), ("差し", 0.15), ("追込", 0.10)])]
  else if course = "福島" then
    [(1200, [("逃げ", 0.18), ("先行", 0.18), ("差し", 0.10), ("追込", 0.05)]),
     (1700, [("逃げ", 0.15), ("先行", 0.18), ("差し", 0.12), ("追込", 0.08)]),
     (1800, [("逃げ", 0.12), ("先行", 0.15), ("差し", 0.12), ("追込", 0.08)]),
     (2000, [("逃げ", 0.10), ("先行", 0.12), ("差し", 0.12), ("追込", 0.08)])]
  else if course = "札幌" then
    [(1200, [("逃げ", 0.15), ("先行", 0.18), ("差し", 0.12), ("追込", 0.08)]),
     (1500, [("逃げ", 0.12), ("先行", 0.15), ("差し", 0.12), ("追込", 0.08)]),
     (1800, [("逃げ", 0.10), ("先行", 0.12), ("差し", 0.12), ("追込", 0.10)]),
     (2000, [("逃げ", 0.08), ("先行", 0.10), ("差し", 0.12), ("追込", 0.10)])]
  else if course = "函館" then
    [(1200, [("逃げ", 0.15), ("先行", 0.18), ("差し", 0.10), ("追込", 0.05)]),
     (1800, [("逃げ", 0.10), ("先行", 0.12), ("差し", 0.12), ("追込", 0.08)]),
     (2000, [("逃げ", 0.08), ("先行", 0.10), ("差し", 0.12), ("追込", 0.10)])]
  else []

/-- Python `min(distances, key=lambda x: abs(x - d))` over an already-sorted
list: first element attaining the minimal absolute difference. -/
def closestGo (d : Int) (best : Int) : List Int → Int
  | [] => best
  | x :: xs => if |x - d| < |best - d| then closestGo d x xs else closestGo d best xs

/-- `RunningStyleAnalyzer.get_style_weight`. -/
def get_style_weight (course : String) (distance : Int) (style : String) : ℚ :=
  let course_weights := COURSE_DISTANCE_STYLE_WEIGHTS course
  match course_weights.find? (fun p => p.1 = distance) with
  | some p => styleWeightRow p.2 style
  | none =>
    match course_weights.map (fun p => p.1) with
    | [] => 1.0
    | x :: xs =>
      let closest_distance := closestGo distance x xs
      match course_weights.find? (fun p => p.1 = closest_distance) with
      | some p => styleWeightRow p.2 style
      | none => 1.0

/-! ### Total score -/

/-- The `result` dict returned by `calculate_total_score`. -/
structure ScoreBreakdown where
  total_score : ℚ
  last_3f_score : ℚ
  distance_score : ℚ
  course_score : ℚ
  style_bonus : ℚ
  late_4f_score : ℚ
  weight_penalty : ℚ
  layoff_penalty : ℚ
  grade_race_bonus : ℚ
  shinba_boost : ℚ
  consecutive_loss_penalty : ℚ
  winning_streak_bonus : ℚ
  cr_score : ℚ
  danger_penalty : ℚ
  danger_flags : DangerFlags
  deriving DecidableEq

/-- The style bonus term of `calculate_total_score` (step 12): zero when
either the style info or the pace prediction is absent. -/
def styleBonusVal (running_style_info : Option StyleInfo)
    (race_pace_prediction : Option PacePrediction) (target_course : String)
    (target_distance : Int) : ℚ :=
  match running_style_info, race_pace_prediction with
  | some info, some pacePred =>
    calculate_style_match_bonus info.style pacePred.pace target_course target_distance
      * info.confidence * get_style_weight target_course target_distance info.style
  | _, _ => 0

/-- `RaceScorer.calculate_total_score`.  The ambient `datetime.now()` read
by the layoff penalty is the explicit `today` parameter; everything else is
positional as in the source. -/
def calculate_total_score (today : Int) (current_weight : ℚ) (target_course : String)
    (target_distance : Int) (history : List PastRecord) (target_track_type : String)
    (running_style_info : Option StyleInfo) (race_pace_prediction : Option PacePrediction)
    (target_baba : String) (horse_age : Option Int) (horse_sex : Option String) :
    ScoreBreakdown :=
  let last_3f_score := calculate_last_3f_relative_score history target_track_type
    target_course target_distance target_baba
  let distance_score := calculate_distance_score history target_distance
  let course_score := calculate_course_score history target_course target_track_type
  let weight_penalty := calculate_weight_penalty current_weight horse_age horse_sex
  let late_4f_score := calculate_late_4f_score history target_distance target_track_type
  let layoff_penalty := calculate_layoff_penalty today history
  let grade_race_bonus := calculate_grade_race_bonus history
  let shinba_boost := calculate_shinba_second_race_boost history
  let consecutive_loss_penalty := calculate_consecutive_big_loss_penalty history
  let winning_streak_bonus := calculate_winning_streak_bonus history
  let cr_score := calculate_course_record_score history target_course target_distance
    target_track_type
  let style_bonus := styleBonusVal running_style_info race_pace_prediction
    target_course target_distance
  let danger_flags := check_danger_flags history target_course target_track_type
  let danger_penalty : ℚ := if danger_flags.local_to_jra then -15.0 else 0.0
  let is_long_distance := target_distance ≥ 1800 ∧ target_track_type = "芝"
  let normalized_3f := min (last_3f_score / 150.0 * 100) 100
  let normalized_distance := min (distance_score / 15.0 * 100) 100
  let normalized_course := min (course_score / 15.0 * 100) 100
  let normalized_style := min (style_bonus / 20.0 * 100) 100
  let normalized_late_4f :=
    if late_4f_score ≠ 0 then min (late_4f_score / 50.0 * 100) 100 else 0
  let total :=
    if is_long_distance then
      normalized_3f * 0.30 + normalized_late_4f * 0.20 + normalized_distance * 0.15
        + normalized_course * 0.10 + normalized_style * 0.15
        + weight_penalty + layoff_penalty + grade_race_bonus + shinba_boost
        + consecutive_loss_penalty + winning_streak_bonus + cr_score + danger_penalty
    else
      normalized_3f * 0.45 + normalized_distance * 0.20 + normalized_course * 0.15
        + normalized_style * 0.20
        + weight_penalty + layoff_penalty + grade_race_bonus + shinba_boost
        + consecutive_loss_penalty + winning_streak_bonus + cr_score + danger_penalty
  { total_score := pyRound10 total
    last_3f_score := last_3f_score
    distance_score := distance_score
    course_score := course_score
    style_bonus := pyRound10 style_bonus
    late_4f_score := late_4f_score
    weight_penalty := weight_penalty
    layoff_penalty := layoff_penalty
    grade_race_bonus := grade_race_bonus
    shinba_boost := shinba_boost
    consecutive_loss_penalty := consecutive_loss_penalty
    winning_streak_bonus := winning_streak_bonus
    cr_score := cr_score
    danger_penalty := danger_penalty
    danger_flags := danger_flags }

/-! ## Spec-modelled comparison definition and concrete inputs -/

/-- Concrete empty-history call for claim C1: current weight 50kg, unknown
age/sex (baseline 58kg), no style context. -/
def exC1 : ScoreBreakdown :=
  calculate_total_score 0 50 "東京" 1600 [] "芝" none none "良" none none

/-- Failing record for claim C2: a won race whose `winner_margin` field is
present with value `None`, and one whose `winner_margin` is absent while
`goal_time_diff` is present with value `None`. -/
def exC2a : DynRecord := { chakujun := 1, winner_margin := .pynone }

/-- Second failing record for claim C2. -/
def exC2b : DynRecord := { chakujun := 1, goal_time_diff := .pynone }

/-- Concrete non-debut single-record history for claim C6's witness. -/
def exC6 : PastRecord := { chakujun := 1, race_name := "3歳未勝利" }

/-- Modelled from the spec: the scan of the claimed (continue-past-excused)
reading of the excuse rule, counting the non-excused positions among the
first `fuel` scan positions starting at `i` without stopping at an excused
one.  This follows the spec's words, not the source; it exists only to be
compared with `calculate_consecutive_big_loss_penalty`. -/
def specContinueGo (history : List PastRecord) (i : Nat) : Nat → Nat
  | 0 => 0
  | fuel + 1 =>
    (if should_reduce_big_loss_penalty history i then 0 else 1)
      + specContinueGo history (i + 1) fuel

/-- Modelled from the spec: the consecutive-big-loss penalty under the
claimed continue-past-excused scan; excused losses neither count nor stop
the scan, and the tier map is applied to the resulting count. -/
def spec_excused_scan_penalty (history : List PastRecord) : ℚ :=
  lossTierPenalty (specContinueGo history 0 (count_consecutive_big_losses history 1.1))

/-- Concrete history for claim C3: three consecutive big losses where the
most recent one is excused by a 600m distance change (1000m after 1600m),
and the two older ones are not excused. -/
def exC3 : List PastRecord :=
  [{ dist := 1000, goal_time_diff := some 2, chakujun := 5 },
   { dist := 1600, goal_time_diff := some 2, chakujun := 5 },
   { dist := 1600, goal_time_diff := some 2, chakujun := 5 }]

/-- Concrete debut record for claim C5: a moderate loss (0.8s winner gap,
between the 0.7s and 1.1s thresholds), finishing 4th, with a final sectional
0.85s faster than the field mean and a 4th-corner position in the back half
(8th of 10), so both extra bonuses trigger. -/
def exC5 : PastRecord :=
  { chakujun := 4, race_name := "2歳新馬", goal_time_diff := some 0.8,
    last_3f := 34.0, position_4c := 8, field_size := 10,
    all_horses_results :=
      [{ chakujun := 1, last_3f := 34.8 },
       { chakujun := 2, last_3f := 34.9, goal_time_diff := 0.1 }] }

/-- Field of aggregated styles with four front-runners (two front, two
stalker styles) for claim C7's counterexample. -/
def exC7horses : List String := ["逃げ", "逃げ", "先行", "先行"]

/-- Field of aggregated styles with five front-runners for claim C7's
witness. -/
def exC7w : List String := ["逃げ", "逃げ", "逃げ", "先行", "先行"]

/-- Single past record for claim C8: only its date (day number 0) matters;
the 99 finish position keeps every other sub-score at zero. -/
def exC8 : PastRecord := { race_date := some 0 }

/-- Single winning record for claim C10: a 0.6s-margin win, satisfying the
data-model convention that a winner's time gap to the winner is 0. -/
def exC10 : PastRecord := { chakujun := 1, goal_time_diff := some 0, winner_margin := 0.6 }

/-! ## Supporting lemmas -/

theorem pyRound10_zero : pyRound10 0 = 0 := by
  norm_num [pyRound10]

theorem breakdown_last_3f (today : Int) (w : ℚ) (tc : String) (td : Int)
    (h : List PastRecord) (tt : String) (si : Option StyleInfo)
    (pp : Option PacePrediction) (tb : String) (age : Option Int) (sex : Option String) :
    (calculate_total_score today w tc td h tt si pp tb age sex).last_3f_score =
      calculate_last_3f_relative_score h tt tc td tb := rfl

theorem breakdown_distance (today : Int) (w : ℚ) (tc : String) (td : Int)
    (h : List PastRecord) (tt : String) (si : Option StyleInfo)
    (pp : Option PacePrediction) (tb : String) (age : Option Int) (sex : Option String) :
    (calculate_total_score today w tc td h tt si pp tb age sex).distance_score =
      calculate_distance_score h td := rfl

theorem breakdown_course (today : Int) (w : ℚ) (tc : String) (td : Int)
    (h : List PastRecord) (tt : String) (si : Option StyleInfo)
    (pp : Option PacePrediction) (tb : String) (age : Option Int) (sex : Option String) :
    (calculate_total_score today w tc td h tt si pp tb age sex).course_score =
      calculate_course_score h tc tt := rfl

theorem breakdown_style (today : Int) (w : ℚ) (tc : String) (td : Int)
    (h : List PastRecord) (tt : String) (si : Option StyleInfo)
    (pp : Option PacePrediction) (tb : String) (age : Option Int) (sex : Option String) :
    (calculate_total_score today w tc td h tt si pp tb age sex).style_bonus =
      pyRound10 (styleBonusVal si pp tc td) := rfl

theorem breakdown_late_4f (today : Int) (w : ℚ) (tc : String) (td : Int)
    (h : List PastRecord) (tt : String) (si : Option StyleInfo)
    (pp : Option PacePrediction) (tb : String) (age : Option Int) (sex : Option String) :
    (calculate_total_score today w tc td h tt si pp tb age sex).late_4f_score =
      calculate_late_4f_score h td tt := rfl

theorem breakdown_weight (today : Int) (w : ℚ) (tc : String) (td : Int)
    (h : List PastRecord) (tt : String) (si : Option StyleInfo)
    (pp : Option PacePrediction) (tb : String) (age : Option Int) (sex : Option String) :
    (calculate_total_score today w tc td h tt si pp tb age sex).weight_penalty =
      calculate_weight_penalty w age sex := rfl

theorem breakdown_layoff (today : Int) (w : ℚ) (tc : String) (td : Int)
    (h : List PastRecord) (tt : String) (si : Option StyleInfo)
    (pp : Option PacePrediction) (tb : String) (age : Option Int) (sex : Option String) :
    (calculate_total_score today w tc td h tt si pp tb age sex).layoff_penalty =
      calculate_layoff_penalty today h := rfl

theorem breakdown_grade (today : Int) (w : ℚ) (tc : String) (td : Int)
    (h : List PastRecord) (tt : String) (si : Option StyleInfo)
    (pp : Option PacePrediction) (tb : String) (age : Option Int) (sex : Option String) :
    (calculate_total_score today w tc td h tt si pp tb age sex).grade_race_bonus =
      calculate_grade_race_bonus h := rfl

theorem breakdown_shinba (today : Int) (w : ℚ) (tc : String) (td : Int)
    (h : List PastRecord) (tt : String) (si : Option StyleInfo)
    (pp : Option PacePrediction) (tb : String) (age : Option Int) (sex : Option String) :
    (calculate_total_score today w tc td h tt si pp tb age sex).shinba_boost =
      calculate_shinba_second_race_boost h := rfl

theorem breakdown_consecutive (today : Int) (w : ℚ) (tc : String) (td : Int)
    (h : List PastRecord) (tt : String) (si : Option StyleInfo)
    (pp : Option PacePrediction) (tb : String) (age : Option Int) (sex : Option String) :
    (calculate_total_score today w tc td h tt si pp tb age sex).consecutive_loss_penalty =
      calculate_consecutive_big_loss_penalty h := rfl

theorem breakdown_streak (today : Int) (w : ℚ) (tc : String) (td : Int)
    (h : List PastRecord) (tt : String) (si : Option StyleInfo)
    (pp : Option PacePrediction) (tb : String) (age : Option Int) (sex : Option String) :
    (calculate_total_score today w tc td h tt si pp tb age sex).winning_streak_bonus =
      calculate_winning_streak_bonus h := rfl

theorem breakdown_cr (today : Int) (w : ℚ) (tc : String) (td : Int)
    (h : List PastRecord) (tt : String) (si : Option StyleInfo)
    (pp : Option PacePrediction) (tb : String) (age : Option Int) (sex : Option String) :
    (calculate_total_score today w tc td h tt si pp tb age sex).cr_score =
      calculate_course_record_score h tc td tt := rfl

theorem breakdown_danger (today : Int) (w : ℚ) (tc : String) (td : Int)
    (h : List PastRecord) (tt : String) (si : Option StyleInfo)
    (pp : Option PacePrediction) (tb : String) (age : Option Int) (sex : Option String) :
    (calculate_total_score today w tc td h tt si pp tb age sex).danger_penalty =
      (if (check_danger_flags h tc tt).local_to_jra then -15.0 else 0.0) := rfl

theorem breakdown_flags (today : Int) (w : ℚ) (tc : String) (td : Int)
    (h : List PastRecord) (tt : String) (si : Option StyleInfo)
    (pp : Option PacePrediction) (tb : String) (age : Option Int) (sex : Option String) :
    (calculate_total_score today w tc td h tt si pp tb age sex).danger_flags =
      check_danger_flags h tc tt := rfl

theorem last3f_score_nil (tt tc : String) (td : Int) (tb : String) :
    calculate_last_3f_relative_score [] tt tc td tb = 0 := by
  simp [calculate_last_3f_relative_score, last3fGo, pyRound10_zero]

theorem distance_score_nil (td : Int) : calculate_distance_score [] td = 0 := by
  simp [calculate_distance_score]

theorem course_score_nil (tc tt : String) : calculate_course_score [] tc tt = 0 := by
  simp [calculate_course_score]

theorem late_4f_score_nil (td : Int) (tt : String) :
    calculate_late_4f_score [] td tt = 0 := by
  unfold calculate_late_4f_score
  split
  · rfl
  · simp [late4fGo, pyRound10_zero]

theorem layoff_penalty_nil (today : Int) : calculate_layoff_penalty today [] = 0 := rfl

theorem grade_race_bonus_nil : calculate_grade_race_bonus [] = 0 := by
  simp [calculate_grade_race_bonus, gradeRaceBonusGo, pyRound10_zero]

theorem shinba_boost_nil : calculate_shinba_second_race_boost [] = 0 := rfl

theorem consecutive_loss_penalty_nil : calculate_consecutive_big_loss_penalty [] = 0 := by
  simp [calculate_consecutive_big_loss_penalty]

theorem winning_streak_bonus_nil : calculate_winning_streak_bonus [] = 0 := by
  simp [calculate_winning_streak_bonus]

theorem cr_score_nil (tc : String) (td : Int) (tt : String) :
    calculate_course_record_score [] tc td tt = 0 := by
  simp [calculate_course_record_score]

theorem danger_flags_nil (tc tt : String) :
    check_danger_flags [] tc tt = ({} : DangerFlags) := rfl

/-! ## Claims -/

theorem danger_penalty_nil (today : Int) (w : ℚ) (tc : String) (td : Int) (tt : String)
    (si : Option StyleInfo) (pp : Option PacePrediction) (tb : String)
    (age : Option Int) (sex : Option String) :
    (calculate_total_score today w tc td [] tt si pp tb age sex).danger_penalty = 0 := by
  rw [breakdown_danger, danger_flags_nil]
  norm_num

theorem total_score_empty (today : Int) (w : ℚ) (tc : String) (td : Int) (tt : String)
    (si : Option StyleInfo) (pp : Option PacePrediction) (tb : String)
    (age : Option Int) (sex : Option String) :
    (calculate_total_score today w tc td [] tt si pp tb age sex).total_score =
      pyRound10 (min (styleBonusVal si pp tc td / 20.0 * 100) 100
        * (if td ≥ 1800 ∧ tt = "芝" then 0.15 else 0.20)
        + calculate_weight_penalty w age sex) := by
  have hmin150 : min ((0 : ℚ) / 150.0 * 100) 100 = 0 := by norm_num [min_def]
  have hmin15 : min ((0 : ℚ) / 15.0 * 100) 100 = 0 := by norm_num [min_def]
  have hlate : (if (0 : ℚ) ≠ 0 then min ((0 : ℚ) / 50.0 * 100) 100 else 0) = 0 := by
    norm_num
  have hflag : (({} : DangerFlags)).local_to_jra = false := rfl
  simp only [calculate_total_score, last3f_score_nil, distance_score_nil,
    course_score_nil, late_4f_score_nil, layoff_penalty_nil, grade_race_bonus_nil,
    shinba_boost_nil, consecutive_loss_penalty_nil, winning_streak_bonus_nil,
    cr_score_nil, danger_flags_nil, hmin150, hmin15, hlate, hflag,
    Bool.false_eq_true, if_false, zero_mul, mul_zero, add_zero, zero_add]
  split_ifs <;> norm_num


/-- Claim C1, counterexample: with an empty history but a current weight of
50kg (below the unknown-age/sex baseline of 58kg), the weight-carried
adjustment of the returned breakdown is +8.0, not 0.0, and the total score
is +8.0, not 0.0.  The claim's assertion that every named sub-score and the
total are 0.0 regardless of the other arguments is therefore false. -/
theorem C1_counterexample : exC1.weight_penalty ≠ 0 ∧ exC1.total_score ≠ 0 := by
  have hw : calculate_weight_penalty 50 none none = 8 := by
    have h : calculate_weight_penalty 50 none none = pyRound10 (-(50 - 58.0)) := rfl
    rw [h]
    norm_num [pyRound10]
  constructor
  · simp only [exC1, breakdown_weight, hw]
    norm_num
  · simp only [exC1, total_score_empty]
    have hsb : styleBonusVal none none "東京" 1600 = 0 := rfl
    rw [hsb, hw]
    norm_num [pyRound10, min_def]

/-- Claim C1 (amended): with an empty history, every history-derived
sub-score (last-3F, distance, course, late-4F, layoff, graded bonus, debut
boost, consecutive-loss penalty, win-streak bonus, course-record score,
danger penalty) is 0.0, while the weight-carried adjustment and the
style/pace bonus keep their history-independent values, and the total equals
the weighted normalized style bonus plus the weight adjustment. -/
theorem C1_amended (today : Int) (w : ℚ) (tc : String) (td : Int) (tt : String)
    (si : Option StyleInfo) (pp : Option PacePrediction) (tb : String)
    (age : Option Int) (sex : Option String) :
    (calculate_total_score today w tc td [] tt si pp tb age sex).last_3f_score = 0 ∧
    (calculate_total_score today w tc td [] tt si pp tb age sex).distance_score = 0 ∧
    (calculate_total_score today w tc td [] tt si pp tb age sex).course_score = 0 ∧
    (calculate_total_score today w tc td [] tt si pp tb age sex).late_4f_score = 0 ∧
    (calculate_total_score today w tc td [] tt si pp tb age sex).layoff_penalty = 0 ∧
    (calculate_total_score today w tc td [] tt si pp tb age sex).grade_race_bonus = 0 ∧
    (calculate_total_score today w tc td [] tt si pp tb age sex).shinba_boost = 0 ∧
    (calculate_total_score today w tc td [] tt si pp tb age
      sex).consecutive_loss_penalty = 0 ∧
    (calculate_total_score today w tc td [] tt si pp tb age
      sex).winning_streak_bonus = 0 ∧
    (calculate_total_score today w tc td [] tt si pp tb age sex).cr_score = 0 ∧
    (calculate_total_score today w tc td [] tt si pp tb age sex).danger_penalty = 0 ∧
    (calculate_total_score today w tc td [] tt si pp tb age sex).weight_penalty =
      calculate_weight_penalty w age sex ∧
    (calculate_total_score today w tc td [] tt si pp tb age sex).style_bonus =
      pyRound10 (styleBonusVal si pp tc td) ∧
    (calculate_total_score today w tc td [] tt si pp tb age sex).total_score =
      pyRound10 (min (styleBonusVal si pp tc td / 20.0 * 100) 100
        * (if td ≥ 1800 ∧ tt = "芝" then 0.15 else 0.20)
        + calculate_weight_penalty w age sex) :=
  ⟨by rw [breakdown_last_3f, last3f_score_nil],
   by rw [breakdown_distance, distance_score_nil],
   by rw [breakdown_course, course_score_nil],
   by rw [breakdown_late_4f, late_4f_score_nil],
   by rw [breakdown_layoff, layoff_penalty_nil],
   by rw [breakdown_grade, grade_race_bonus_nil],
   by rw [breakdown_shinba, shinba_boost_nil],
   by rw [breakdown_consecutive, consecutive_loss_penalty_nil],
   by rw [breakdown_streak, winning_streak_bonus_nil],
   by rw [breakdown_cr, cr_score_nil],
   danger_penalty_nil today w tc td tt si pp tb age sex,
   breakdown_weight today w tc td [] tt si pp tb age sex,
   breakdown_style today w tc td [] tt si pp tb age sex,
   total_score_empty today w tc td tt si pp tb age sex⟩


/-- Claim C2 (code bug): under Python value semantics, the winning-streak
bonus raises `TypeError` (instead of degrading locally) when the most recent
record is a win whose `winner_margin` is `None` (the comparison
`margin >= 0.5` on `None`), or whose `winner_margin` is missing while
`goal_time_diff` is `None` (the conversion `float(None)`).
`calculate_total_score` calls this helper outside any `try`, so the
exception propagates to the caller, contradicting the claim that no
exception ever escapes. -/
theorem C2_code_bug :
    calculate_winning_streak_bonus_dyn [exC2a] = .error "TypeError" ∧
    calculate_winning_streak_bonus_dyn [exC2b] = .error "TypeError" := by
  constructor <;> rfl


/-- Claim C6 (confirmed): the debut-to-second-start boost is 0 whenever the
history length differs from 1, and 0 for a single-record history whose race
label does not contain the debut marker. -/
theorem C6_debut_boost_gate (h : List PastRecord) (r : PastRecord) :
    (h.length ≠ 1 → calculate_shinba_second_race_boost h = 0) ∧
    (pyIn "新馬" r.race_name = false → calculate_shinba_second_race_boost [r] = 0) := by
  constructor
  · intro hlen
    match h with
    | [] => rfl
    | [a] => exact absurd rfl hlen
    | a :: b :: t => rfl
  · intro hname
    simp [calculate_shinba_second_race_boost, hname]

/-- Witness for claim C6 at the empty history and at a labelled non-debut
single start. -/
theorem C6_witness :
    calculate_shinba_second_race_boost [] = 0 ∧
    calculate_shinba_second_race_boost [exC6] = 0 :=
  ⟨(C6_debut_boost_gate [] exC6).1 (by decide), (C6_debut_boost_gate [] exC6).2 (by decide)⟩

theorem reducedLossCount_stops (h : List PastRecord) :
    ∀ n i k, k < n → should_reduce_big_loss_penalty h (i + k) = true →
      (∀ j, j < k → should_reduce_big_loss_penalty h (i + j) = false) →
      reducedLossCount h i n = k := by
  intro n
  induction n with
  | zero => intro i k hk; omega
  | succ m ih =>
    intro i k hk hred hmin
    cases k with
    | zero =>
      have h0 : should_reduce_big_loss_penalty h i = true := by simpa using hred
      simp [reducedLossCount, h0]
    | succ k =>
      have h0 : should_reduce_big_loss_penalty h i = false := by
        simpa using hmin 0 (Nat.succ_pos k)
      have hrec : reducedLossCount h (i + 1) m = k := by
        refine ih (i + 1) k (by omega) ?_ ?_
        · have : i + 1 + k = i + (k + 1) := by omega
          rw [this]
          exact hred
        · intro j hj
          have : i + 1 + j = i + (j + 1) := by omega
          rw [this]
          exact hmin (j + 1) (by omega)
      simp [reducedLossCount, h0, hrec]
      omega

/-- Claim C3, counterexample: on a history of three consecutive big losses
whose most recent one is excused (a 600m distance change) and whose older
two are not, the code stops the scan at the excused loss and returns
penalty 0, while the claimed continue-past-excused reading would count the
two older losses and yield the 2-loss tier of -8. -/
theorem C3_counterexample :
    calculate_consecutive_big_loss_penalty exC3 = 0 ∧
    spec_excused_scan_penalty exC3 = -8 := by
  have hcount : count_consecutive_big_losses exC3 1.1 = 3 := by
    norm_num [exC3, count_consecutive_big_losses]
  have hr0 : should_reduce_big_loss_penalty exC3 0 = true := by
    norm_num [exC3, should_reduce_big_loss_penalty]
  have hr1 : should_reduce_big_loss_penalty exC3 1 = false := by
    norm_num [exC3, should_reduce_big_loss_penalty]
  have hr2 : should_reduce_big_loss_penalty exC3 2 = false := by
    norm_num [exC3, should_reduce_big_loss_penalty]
  constructor
  · have hne : ¬ (exC3 = []) := by simp [exC3]
    rw [calculate_consecutive_big_loss_penalty, if_neg hne]
    simp only [hcount]
    norm_num [reducedLossCount, hr0, lossTierPenalty]
  · rw [spec_excused_scan_penalty]
    simp only [hcount]
    norm_num [specContinueGo, hr0, hr1, hr2, lossTierPenalty]

/-- Claim C3 (amended): the code's scan terminates at the first excused big
loss instead of continuing past it: if the scan position `i` (within the
consecutive big-loss prefix) is the first excused one, the penalty is the
tier of `i` — the number of non-excused losses strictly before it — and the
losses beyond position `i` contribute nothing. -/
theorem C3_amended (h : List PastRecord) (i : Nat)
    (hi : i < count_consecutive_big_losses h 1.1)
    (hred : should_reduce_big_loss_penalty h i = true)
    (hfirst : ∀ j, j < i → should_reduce_big_loss_penalty h j = false) :
    calculate_consecutive_big_loss_penalty h = lossTierPenalty i := by
  have hne : ¬ (h = []) := by
    intro he
    rw [he] at hi
    simp [count_consecutive_big_losses] at hi
  have hc0 : ¬ (count_consecutive_big_losses h 1.1 = 0) := by omega
  rw [calculate_consecutive_big_loss_penalty, if_neg hne, if_neg hc0]
  congr 1
  refine reducedLossCount_stops h (count_consecutive_big_losses h 1.1) 0 i hi ?_ ?_
  · simpa using hred
  · intro j hj
    simpa using hfirst j hj

/-- Witness for claim C3's amended theorem: on the concrete history the
first scan position is excused, so the penalty is the 0-loss tier. -/
theorem C3_witness :
    calculate_consecutive_big_loss_penalty exC3 = lossTierPenalty 0 :=
  C3_amended exC3 0
    (by norm_num [exC3, count_consecutive_big_losses])
    (by norm_num [exC3, should_reduce_big_loss_penalty])
    (fun j hj => absurd hj (Nat.not_lt_zero j))

theorem lossTierPenalty_cases (m : Nat) :
    lossTierPenalty m = 0 ∨ lossTierPenalty m = -3 ∨ lossTierPenalty m = -8 ∨
      lossTierPenalty m = -15 := by
  match m with
  | 0 => left; norm_num [lossTierPenalty]
  | 1 => right; left; norm_num [lossTierPenalty]
  | 2 => right; right; left; norm_num [lossTierPenalty]
  | m + 3 =>
    right; right; right
    rw [lossTierPenalty, if_neg (by omega), if_neg (by omega), if_neg (by omega)]
    norm_num

theorem penalty_eq_tier (h : List PastRecord) :
    calculate_consecutive_big_loss_penalty h = lossTierPenalty (effectiveLossCount h) := by
  rw [calculate_consecutive_big_loss_penalty, effectiveLossCount]
  by_cases hne : h = []
  · subst hne
    norm_num [count_consecutive_big_losses, reducedLossCount, lossTierPenalty]
  · rw [if_neg hne]
    by_cases hc : count_consecutive_big_losses h 1.1 = 0
    · rw [if_pos hc, hc]
      norm_num [reducedLossCount, lossTierPenalty]
    · rw [if_neg hc]

/-- Claim C4 (confirmed): the consecutive-big-loss penalty always lies in
the set of four tier values, equals the tier map applied to the effective
(post-excuse) loss count, the tier map sends 0, 1, 2 and any count of 3 or
more to 0, -3, -8 and -15 and is non-increasing step by step, and the
penalty recorded in the breakdown is a function of the history alone (no
other sub-score enters it). -/
theorem C4_loss_penalty_tiers (h : List PastRecord) (n : Nat) (today : Int) (w : ℚ)
    (tc : String) (td : Int) (tt : String) (si : Option StyleInfo)
    (pp : Option PacePrediction) (tb : String) (age : Option Int) (sex : Option String) :
    (calculate_consecutive_big_loss_penalty h = 0 ∨
     calculate_consecutive_big_loss_penalty h = -3 ∨
     calculate_consecutive_big_loss_penalty h = -8 ∨
     calculate_consecutive_big_loss_penalty h = -15) ∧
    calculate_consecutive_big_loss_penalty h = lossTierPenalty (effectiveLossCount h) ∧
    lossTierPenalty (n + 1) ≤ lossTierPenalty n ∧
    lossTierPenalty 0 = 0 ∧ lossTierPenalty 1 = -3 ∧ lossTierPenalty 2 = -8 ∧
    lossTierPenalty (n + 3) = -15 ∧
    (calculate_total_score today w tc td h tt si pp tb age sex).consecutive_loss_penalty =
      calculate_consecutive_big_loss_penalty h := by
  refine ⟨?_, penalty_eq_tier h, ?_, by norm_num [lossTierPenalty],
    by norm_num [lossTierPenalty], by norm_num [lossTierPenalty], ?_,
    breakdown_consecutive today w tc td h tt si pp tb age sex⟩
  · rw [penalty_eq_tier h]
    exact lossTierPenalty_cases (effectiveLossCount h)
  · match n with
    | 0 => norm_num [lossTierPenalty]
    | 1 => norm_num [lossTierPenalty]
    | 2 => norm_num [lossTierPenalty]
    | n + 3 =>
      rw [lossTierPenalty, lossTierPenalty, if_neg (by omega), if_neg (by omega),
        if_neg (by omega), if_neg (by omega), if_neg (by omega), if_neg (by omega)]
  · rw [lossTierPenalty, if_neg (by omega), if_neg (by omega), if_neg (by omega)]
    norm_num

theorem shinba_both_triggered (r : PastRecord)
    (hname : pyIn "新馬" r.race_name = true)
    (h3f : r.last_3f > 0)
    (hres : r.all_horses_results ≠ [])
    (hvalid : validLast3f r.all_horses_results ≠ [])
    (hfast : listMean (validLast3f r.all_horses_results) - r.last_3f ≥ 0.5)
    (hpos : r.position_4c > 0) (hfs : r.field_size > 0)
    (hback : (r.position_4c : ℚ) / (r.field_size : ℚ) > 0.50) :
    calculate_shinba_second_race_boost [r] =
      shinbaBaseBonus r.chakujun
        + (if shinbaMargin r ≥ 1.1 then 0.0
           else if shinbaMargin r ≥ 0.7 then 1.0 else 2.0)
        + (if shinbaMargin r ≥ 1.1 then 0.0 else 1.5) := by
  have hlt : r.last_3f < listMean (validLast3f r.all_horses_results) := by linarith
  simp only [calculate_shinba_second_race_boost, hname, if_true,
    if_pos (And.intro h3f hres), if_pos hvalid, if_pos hfast,
    if_pos (And.intro hpos hfs), if_pos hback, if_pos hlt]
  split_ifs <;> ring

theorem exC5_name : pyIn "新馬" exC5.race_name = true := by decide

theorem exC5_valid : validLast3f exC5.all_horses_results = [34.8, 34.9] := by
  norm_num [exC5, validLast3f, List.filter]

theorem exC5_res_ne : exC5.all_horses_results ≠ [] := by simp [exC5]

theorem exC5_valid_ne : validLast3f exC5.all_horses_results ≠ [] := by
  rw [exC5_valid]
  simp

theorem exC5_fast : listMean (validLast3f exC5.all_horses_results) - exC5.last_3f ≥ 0.5 := by
  rw [exC5_valid]
  norm_num [listMean, exC5]

theorem exC5_margin : shinbaMargin exC5 = 0.8 := by
  norm_num [shinbaMargin, exC5]

/-- Claim C5, counterexample: on a debut record with a moderate winner gap
of 0.8s (between 0.7s and 1.1s) where both extra bonuses trigger, the code
halves only the fast-final-sectional bonus (2.0 to 1.0) but pays the full
raced-from-the-back bonus of 1.5, so the boost is 0 + 1.0 + 1.5 = 2.5; the
claim's prediction that both extras are halved would give 0 + 1.0 + 0.75. -/
theorem C5_counterexample :
    calculate_shinba_second_race_boost [exC5] = 2.5 ∧
    calculate_shinba_second_race_boost [exC5] ≠
      shinbaBaseBonus exC5.chakujun + 0.5 * 2.0 + 0.5 * 1.5 := by
  have hb := shinba_both_triggered exC5 exC5_name (by norm_num [exC5]) exC5_res_ne
    exC5_valid_ne exC5_fast (by norm_num [exC5]) (by norm_num [exC5]) (by norm_num [exC5])
  rw [hb, exC5_margin]
  norm_num [shinbaBaseBonus, exC5]

/-- Claim C5 (amended): on a single debut-labelled record where both extra
bonuses trigger (fast final sectional and back-half 4th-corner position),
the fast-final-sectional bonus is voided at a winner gap of at least 1.1s
and halved at a gap in [0.7s, 1.1s); the raced-from-the-back bonus is voided
at a gap of at least 1.1s but paid in full below that (it is never halved);
the base finish-position bonus is unaffected by the gap. -/
theorem C5_amended (r : PastRecord)
    (hname : pyIn "新馬" r.race_name = true)
    (h3f : r.last_3f > 0)
    (hres : r.all_horses_results ≠ [])
    (hvalid : validLast3f r.all_horses_results ≠ [])
    (hfast : listMean (validLast3f r.all_horses_results) - r.last_3f ≥ 0.5)
    (hpos : r.position_4c > 0) (hfs : r.field_size > 0)
    (hback : (r.position_4c : ℚ) / (r.field_size : ℚ) > 0.50) :
    calculate_shinba_second_race_boost [r] =
      shinbaBaseBonus r.chakujun
        + (if shinbaMargin r ≥ 1.1 then 0.0
           else if shinbaMargin r ≥ 0.7 then 1.0 else 2.0)
        + (if shinbaMargin r ≥ 1.1 then 0.0 else 1.5) :=
  shinba_both_triggered r hname h3f hres hvalid hfast hpos hfs hback

/-- Witness for claim C5's amended theorem at the concrete moderate-loss
debut record. -/
theorem C5_witness :
    calculate_shinba_second_race_boost [exC5] =
      shinbaBaseBonus exC5.chakujun
        + (if shinbaMargin exC5 ≥ 1.1 then 0.0
           else if shinbaMargin exC5 ≥ 0.7 then 1.0 else 2.0)
        + (if shinbaMargin exC5 ≥ 1.1 then 0.0 else 1.5) :=
  C5_amended exC5 exC5_name (by norm_num [exC5]) exC5_res_ne
    exC5_valid_ne exC5_fast (by norm_num [exC5]) (by norm_num [exC5]) (by norm_num [exC5])

/-- Claim C7, counterexample: with the same field of four front-runners and
the same field size, the short-straight course 中山 (310m) already predicts
a fast pace, while the long-straight course 東京 (525m) does not — the
short-straight tier reports fast at a lower front-runner count than the
long-straight tier, the opposite of the claimed direction. -/
theorem C7_counterexample :
    (predict_race_pace exC7horses 16 "中山").pace = "ハイ" ∧
    (predict_race_pace exC7horses 16 "東京").pace ≠ "ハイ" := by
  constructor <;> decide

/-- Claim C7 (amended): the fast/medium/slow thresholds do come from three
tiers keyed by the course's straight length, but a long straight (at least
500m) uses a higher front-runner threshold for a fast pace (5 or more) than
a short straight (at most 320m, 4 or more): for the same field of styles and
field size, whenever the long-straight tier reports fast, the short-straight
tier reports fast as well — not conversely. -/
theorem C7_amended (horses : List String) (fs : Int) (cLong cShort : String)
    (hL : (courseStraight cLong).getD 400 ≥ 500)
    (hS : (courseStraight cShort).getD 400 ≤ 320)
    (hfast : (predict_race_pace horses fs cLong).pace = "ハイ") :
    (predict_race_pace horses fs cShort).pace = "ハイ" := by
  by_cases hh : horses = []
  · rw [hh] at hfast
    rw [show predict_race_pace [] fs cLong =
      { pace := "ミドル", front_ratio := 0.30, straight_length := none } from rfl] at hfast
    exact absurd hfast (by decide)
  · simp only [predict_race_pace, if_neg hh] at hfast ⊢
    rw [if_pos hL] at hfast
    have hS' : ¬ ((courseStraight cShort).getD 400 ≥ 500) := by omega
    rw [if_neg hS', if_pos hS]
    by_cases h2 :
        (horses.filter (fun s => s = "逃げ")).length
          + (horses.filter (fun s => s = "先行")).length ≤ 2
    · rw [if_pos h2] at hfast
      exact absurd (show ("スロー" : String) = "ハイ" from hfast) (by decide)
    · rw [if_neg h2] at hfast
      by_cases h4 :
          (horses.filter (fun s => s = "逃げ")).length
            + (horses.filter (fun s => s = "先行")).length ≤ 4
      · rw [if_pos h4] at hfast
        exact absurd (show ("ミドル" : String) = "ハイ" from hfast) (by decide)
      · rw [if_neg (show ¬ ((horses.filter (fun s => s = "逃げ")).length
            + (horses.filter (fun s => s = "先行")).length ≤ 1) by omega),
          if_neg (show ¬ ((horses.filter (fun s => s = "逃げ")).length
            + (horses.filter (fun s => s = "先行")).length ≤ 3) by omega)]

/-- Witness for claim C7's amended theorem: five declared front-runners make
the long-straight course 東京 predict a fast pace, and then the
short-straight course 中山 predicts fast as well. -/
theorem C7_witness : (predict_race_pace exC7w 16 "中山").pace = "ハイ" :=
  C7_amended exC7w 16 "東京" "中山" (by decide) (by decide) (by decide)

/-- Claim C8, counterexample: the layoff penalty reads the ambient current
date (`datetime.now()` in the source, the explicit `today` here), so two
invocations of `calculate_total_score` with identical explicit arguments but
different ambient dates return different breakdowns: 59 days after the last
start the layoff penalty is 0, 364 days after it is -20. -/
theorem C8_counterexample :
    (calculate_total_score 59 56 "東京" 1600 [exC8] "芝" none none "良" none
      none).layoff_penalty = 0 ∧
    (calculate_total_score 364 56 "東京" 1600 [exC8] "芝" none none "良" none
      none).layoff_penalty = -20 ∧
    calculate_total_score 59 56 "東京" 1600 [exC8] "芝" none none "良" none none ≠
      calculate_total_score 364 56 "東京" 1600 [exC8] "芝" none none "良" none none := by
  have h1 : (calculate_total_score 59 56 "東京" 1600 [exC8] "芝" none none "良" none
      none).layoff_penalty = 0 := by
    rw [breakdown_layoff]
    norm_num [calculate_layoff_penalty, exC8]
  have h2 : (calculate_total_score 364 56 "東京" 1600 [exC8] "芝" none none "良" none
      none).layoff_penalty = -20 := by
    rw [breakdown_layoff]
    norm_num [calculate_layoff_penalty, exC8]
  refine ⟨h1, h2, fun he => ?_⟩
  rw [he, h2] at h1
  norm_num at h1

/-- Claim C8 (amended): `calculate_total_score` is a pure function of its
explicit arguments together with the ambient current date, and the date
enters only through the layoff penalty: every other breakdown field is
identical across two invocations that differ only in the current date, and
each invocation's layoff penalty is exactly the layoff function of its own
date and the history. -/
theorem C8_amended (t1 t2 : Int) (w : ℚ) (tc : String) (td : Int)
    (h : List PastRecord) (tt : String) (si : Option StyleInfo)
    (pp : Option PacePrediction) (tb : String) (age : Option Int) (sex : Option String) :
    (calculate_total_score t1 w tc td h tt si pp tb age sex).last_3f_score =
      (calculate_total_score t2 w tc td h tt si pp tb age sex).last_3f_score ∧
    (calculate_total_score t1 w tc td h tt si pp tb age sex).distance_score =
      (calculate_total_score t2 w tc td h tt si pp tb age sex).distance_score ∧
    (calculate_total_score t1 w tc td h tt si pp tb age sex).course_score =
      (calculate_total_score t2 w tc td h tt si pp tb age sex).course_score ∧
    (calculate_total_score t1 w tc td h tt si pp tb age sex).style_bonus =
      (calculate_total_score t2 w tc td h tt si pp tb age sex).style_bonus ∧
    (calculate_total_score t1 w tc td h tt si pp tb age sex).late_4f_score =
      (calculate_total_score t2 w tc td h tt si pp tb age sex).late_4f_score ∧
    (calculate_total_score t1 w tc td h tt si pp tb age sex).weight_penalty =
      (calculate_total_score t2 w tc td h tt si pp tb age sex).weight_penalty ∧
    (calculate_total_score t1 w tc td h tt si pp tb age sex).grade_race_bonus =
      (calculate_total_score t2 w tc td h tt si pp tb age sex).grade_race_bonus ∧
    (calculate_total_score t1 w tc td h tt si pp tb age sex).shinba_boost =
      (calculate_total_score t2 w tc td h tt si pp tb age sex).shinba_boost ∧
    (calculate_total_score t1 w tc td h tt si pp tb age sex).consecutive_loss_penalty =
      (calculate_total_score t2 w tc td h tt si pp tb age sex).consecutive_loss_penalty ∧
    (calculate_total_score t1 w tc td h tt si pp tb age sex).winning_streak_bonus =
      (calculate_total_score t2 w tc td h tt si pp tb age sex).winning_streak_bonus ∧
    (calculate_total_score t1 w tc td h tt si pp tb age sex).cr_score =
      (calculate_total_score t2 w tc td h tt si pp tb age sex).cr_score ∧
    (calculate_total_score t1 w tc td h tt si pp tb age sex).danger_penalty =
      (calculate_total_score t2 w tc td h tt si pp tb age sex).danger_penalty ∧
    (calculate_total_score t1 w tc td h tt si pp tb age sex).danger_flags =
      (calculate_total_score t2 w tc td h tt si pp tb age sex).danger_flags ∧
    (calculate_total_score t1 w tc td h tt si pp tb age sex).layoff_penalty =
      calculate_layoff_penalty t1 h ∧
    (calculate_total_score t2 w tc td h tt si pp tb age sex).layoff_penalty =
      calculate_layoff_penalty t2 h :=
  ⟨rfl, rfl, rfl, rfl, rfl, rfl, rfl, rfl, rfl, rfl, rfl, rfl, rfl, rfl, rfl⟩

theorem pyRound10_nonneg {x : ℚ} (hx : 0 ≤ x) : 0 ≤ pyRound10 x := by
  simp only [pyRound10]
  have h10 : (0 : ℚ) ≤ x * 10 := by linarith
  have hf : (0 : ℤ) ≤ ⌊x * 10⌋ := Int.floor_nonneg.mpr h10
  have hfq : (0 : ℚ) ≤ (⌊x * 10⌋ : ℤ) := by exact_mod_cast hf
  have hfq1 : (0 : ℚ) ≤ ((⌊x * 10⌋ + 1 : ℤ) : ℚ) := by push_cast; linarith
  split_ifs <;> apply div_nonneg _ (by norm_num : (0:ℚ) ≤ 10) <;>
    first
      | exact hfq
      | exact hfq1

theorem pyRound10_le_int {x : ℚ} {k : ℤ} (hx : x ≤ (k : ℚ)) :
    pyRound10 x ≤ (k : ℚ) := by
  simp only [pyRound10]
  have hceil : ⌈x * 10⌉ ≤ 10 * k := by
    apply Int.ceil_le.mpr
    push_cast
    linarith
  have hfc : ⌊x * 10⌋ ≤ ⌈x * 10⌉ := Int.floor_le_ceil _
  have hstep : 1/2 ≤ x * 10 - (⌊x * 10⌋ : ℚ) → ⌊x * 10⌋ + 1 ≤ ⌈x * 10⌉ := by
    intro hr
    by_contra hcon
    have hle : ⌈x * 10⌉ ≤ ⌊x * 10⌋ := by omega
    have := Int.ceil_le.mp hle
    have hx10 : x * 10 ≤ (⌊x * 10⌋ : ℚ) := by exact_mod_cast this
    linarith
  have hgoal : ∀ n : ℤ, n ≤ 10 * k → ((n : ℚ) / 10 ≤ (k : ℚ)) := by
    intro n hn
    rw [div_le_iff₀ (by norm_num : (0:ℚ) < 10)]
    have : (n : ℚ) ≤ ((10 * k : ℤ) : ℚ) := by exact_mod_cast hn
    push_cast at this ⊢
    linarith
  split_ifs with h1 h2 h3
  · exact hgoal _ (le_trans hfc hceil)
  · exact hgoal _ (le_trans (hstep (by linarith)) hceil)
  · exact hgoal _ (le_trans hfc hceil)
  · exact hgoal _ (le_trans (hstep (by linarith)) hceil)

theorem perfCoefChakujun_nonneg (c : Int) : 0 ≤ perfCoefChakujun c := by
  unfold perfCoefChakujun
  split_ifs <;> norm_num

theorem perfCoef_nonneg (c : Int) (d : Option ℚ) : 0 ≤ perfCoef c d := by
  unfold perfCoef
  rcases d with _ | d
  · exact perfCoefChakujun_nonneg c
  · dsimp only
    split_ifs <;> first
      | exact perfCoefChakujun_nonneg c
      | norm_num

theorem distanceBasePts_nonneg (d : Int) (hd : 0 ≤ d) : 0 ≤ distanceBasePts d := by
  unfold distanceBasePts
  split_ifs with h1 h2 h3
  · have hq : (d : ℚ) ≤ 200 := by exact_mod_cast h1
    have hq0 : (0 : ℚ) ≤ (d : ℚ) := by exact_mod_cast hd
    linarith
  · norm_num
  · norm_num
  · norm_num

theorem distanceScoreGo_nonneg (td : Int) (l : List (PastRecord × ℚ))
    (hw : ∀ p ∈ l, 0 ≤ p.2) :
    0 ≤ (distanceScoreGo td l).1 ∧ 0 ≤ (distanceScoreGo td l).2 := by
  induction l with
  | nil => simp [distanceScoreGo]
  | cons p rest ih =>
    obtain ⟨r, w⟩ := p
    have hrest := ih (fun q hq => hw q (List.mem_cons_of_mem _ hq))
    have hpw : (0 : ℚ) ≤ w := hw (r, w) (List.mem_cons_self _ _)
    rw [distanceScoreGo]
    dsimp only
    split_ifs
    · exact hrest
    · exact hrest
    · refine ⟨add_nonneg hrest.1 ?_, add_nonneg hrest.2 hpw⟩
      exact mul_nonneg (mul_nonneg (distanceBasePts_nonneg _ (abs_nonneg _))
        (perfCoef_nonneg _ _)) hpw

theorem courseScoreGo_nonneg (tc tt : String) (l : List (PastRecord × ℚ))
    (hw : ∀ p ∈ l, 0 ≤ p.2) :
    0 ≤ (courseScoreGo tc tt l).1 ∧ 0 ≤ (courseScoreGo tc tt l).2 := by
  induction l with
  | nil => simp [courseScoreGo]
  | cons p rest ih =>
    obtain ⟨r, w⟩ := p
    have hrest := ih (fun q hq => hw q (List.mem_cons_of_mem _ hq))
    have hpw : (0 : ℚ) ≤ w := hw (r, w) (List.mem_cons_self _ _)
    rw [courseScoreGo]
    dsimp only
    split_ifs <;> first
      | exact hrest
      | exact ⟨add_nonneg hrest.1
          (mul_nonneg (mul_nonneg (by norm_num) (perfCoef_nonneg _ _)) hpw),
          add_nonneg hrest.2 hpw⟩

theorem crPts_nonneg (d : ℚ) : 0 ≤ crPts d := by
  unfold crPts
  split_ifs <;> linarith

theorem crGo_nonneg (td : Int) (tt : String) (l : List (PastRecord × ℚ))
    (hw : ∀ p ∈ l, 0 ≤ p.2) : 0 ≤ (crGo td tt l).1 := by
  induction l with
  | nil => simp [crGo]
  | cons p rest ih =>
    obtain ⟨r, w⟩ := p
    have hrest := ih (fun q hq => hw q (List.mem_cons_of_mem _ hq))
    have hpw : (0 : ℚ) ≤ w := hw (r, w) (List.mem_cons_self _ _)
    rw [crGo]
    dsimp only
    split_ifs <;> first
      | exact hrest
      | exact add_nonneg hrest
          (mul_nonneg (crPts_nonneg _) (mul_nonneg hpw (by norm_num)))

theorem winningStreakGo_nonneg (l : List (PastRecord × ℚ))
    (hw : ∀ p ∈ l, 0 ≤ p.2) : 0 ≤ winningStreakGo l := by
  induction l with
  | nil => simp [winningStreakGo]
  | cons p rest ih =>
    obtain ⟨r, w⟩ := p
    have hrest := ih (fun q hq => hw q (List.mem_cons_of_mem _ hq))
    have hpw : (0 : ℚ) ≤ w := hw (r, w) (List.mem_cons_self _ _)
    rw [winningStreakGo]
    dsimp only
    split_ifs <;> first
      | exact add_nonneg (mul_nonneg (by norm_num) hpw) hrest
      | norm_num

theorem zip_weights_nonneg (l : List PastRecord) (ws : List ℚ)
    (hws : ∀ w ∈ ws, (0:ℚ) ≤ w) : ∀ p ∈ l.zip ws, (0:ℚ) ≤ p.2 := by
  rintro ⟨a, b⟩ hab
  exact hws b (List.of_mem_zip hab).2

theorem TIME_WEIGHTS_nonneg : ∀ w ∈ TIME_WEIGHTS, (0:ℚ) ≤ w := by
  intro w hw
  fin_cases hw <;> norm_num

theorem CR_WEIGHTS_nonneg : ∀ w ∈ CR_WEIGHTS, (0:ℚ) ≤ w := by
  intro w hw
  fin_cases hw <;> norm_num

theorem STREAK_WEIGHTS_nonneg : ∀ w ∈ STREAK_WEIGHTS, (0:ℚ) ≤ w := by
  intro w hw
  fin_cases hw <;> norm_num

theorem distance_score_bounds (h : List PastRecord) (td : Int) :
    0 ≤ calculate_distance_score h td ∧ calculate_distance_score h td ≤ 15 := by
  simp only [calculate_distance_score]
  split_ifs with h1 h2
  · norm_num
  · norm_num
  · obtain ⟨hs, hd⟩ := distanceScoreGo_nonneg td ((h.take 5).zip TIME_WEIGHTS)
      (zip_weights_nonneg _ _ TIME_WEIGHTS_nonneg)
    have hq : 0 ≤ (distanceScoreGo td ((h.take 5).zip TIME_WEIGHTS)).1 /
        (distanceScoreGo td ((h.take 5).zip TIME_WEIGHTS)).2 := div_nonneg hs hd
    refine ⟨pyRound10_nonneg (le_min hq (by norm_num)), ?_⟩
    have h15 : pyRound10 (min ((distanceScoreGo td ((h.take 5).zip TIME_WEIGHTS)).1 /
        (distanceScoreGo td ((h.take 5).zip TIME_WEIGHTS)).2) 15.0) ≤ ((15 : ℤ) : ℚ) :=
      pyRound10_le_int (le_trans (min_le_right _ _) (by norm_num))
    simpa using h15

theorem course_score_bounds (h : List PastRecord) (tc tt : String) :
    0 ≤ calculate_course_score h tc tt ∧ calculate_course_score h tc tt ≤ 15 := by
  simp only [calculate_course_score]
  split_ifs with h1 h2
  · norm_num
  · norm_num
  · obtain ⟨hs, hd⟩ := courseScoreGo_nonneg tc tt ((h.take 5).zip TIME_WEIGHTS)
      (zip_weights_nonneg _ _ TIME_WEIGHTS_nonneg)
    have hq : 0 ≤ (courseScoreGo tc tt ((h.take 5).zip TIME_WEIGHTS)).1 /
        (courseScoreGo tc tt ((h.take 5).zip TIME_WEIGHTS)).2 := div_nonneg hs hd
    refine ⟨pyRound10_nonneg (le_min hq (by norm_num)), ?_⟩
    have h15 : pyRound10 (min ((courseScoreGo tc tt ((h.take 5).zip TIME_WEIGHTS)).1 /
        (courseScoreGo tc tt ((h.take 5).zip TIME_WEIGHTS)).2) 15.0) ≤ ((15 : ℤ) : ℚ) :=
      pyRound10_le_int (le_trans (min_le_right _ _) (by norm_num))
    simpa using h15

theorem cr_score_bounds (h : List PastRecord) (tc : String) (td : Int) (tt : String) :
    0 ≤ calculate_course_record_score h tc td tt ∧
      calculate_course_record_score h tc td tt ≤ 10 := by
  simp only [calculate_course_record_score]
  split_ifs with h1 h2
  · norm_num
  · norm_num
  · have hb := crGo_nonneg td tt ((h.take 5).zip CR_WEIGHTS)
      (zip_weights_nonneg _ _ CR_WEIGHTS_nonneg)
    refine ⟨pyRound10_nonneg (le_min hb (by norm_num)), ?_⟩
    have h10 : pyRound10 (min (crGo td tt ((h.take 5).zip CR_WEIGHTS)).1 10.0) ≤
        ((10 : ℤ) : ℚ) :=
      pyRound10_le_int (le_trans (min_le_right _ _) (by norm_num))
    simpa using h10

theorem streak_bonus_bounds (h : List PastRecord) :
    0 ≤ calculate_winning_streak_bonus h ∧ calculate_winning_streak_bonus h ≤ 10 := by
  simp only [calculate_winning_streak_bonus]
  split_ifs with h1
  · norm_num
  · have hb := winningStreakGo_nonneg ((h.take 3).zip STREAK_WEIGHTS)
      (zip_weights_nonneg _ _ STREAK_WEIGHTS_nonneg)
    refine ⟨pyRound10_nonneg (le_min hb (by norm_num)), ?_⟩
    have h10 : pyRound10 (min (winningStreakGo ((h.take 3).zip STREAK_WEIGHTS)) 10.0) ≤
        ((10 : ℤ) : ℚ) :=
      pyRound10_le_int (le_trans (min_le_right _ _) (by norm_num))
    simpa using h10

/-- Claim C9 (confirmed): for every history and target context, the
distance-suitability score lies in [0, 15], the course-suitability score in
[0, 15], the course-record comparison score in [0, 10], and the win-streak
bonus in [0, 10]. -/
theorem C9_sub_score_caps (h : List PastRecord) (td : Int) (tc tt : String) :
    0 ≤ calculate_distance_score h td ∧ calculate_distance_score h td ≤ 15 ∧
    0 ≤ calculate_course_score h tc tt ∧ calculate_course_score h tc tt ≤ 15 ∧
    0 ≤ calculate_course_record_score h tc td tt ∧
      calculate_course_record_score h tc td tt ≤ 10 ∧
    0 ≤ calculate_winning_streak_bonus h ∧ calculate_winning_streak_bonus h ≤ 10 :=
  ⟨(distance_score_bounds h td).1, (distance_score_bounds h td).2,
   (course_score_bounds h tc tt).1, (course_score_bounds h tc tt).2,
   (cr_score_bounds h tc td tt).1, (cr_score_bounds h tc td tt).2,
   (streak_bonus_bounds h).1, (streak_bonus_bounds h).2⟩

theorem streak_head_not_win (r : PastRecord) (t : List PastRecord)
    (hc : r.chakujun ≠ 1) : calculate_winning_streak_bonus (r :: t) = 0 := by
  rw [calculate_winning_streak_bonus, if_neg (by simp : ¬(r :: t = []))]
  rw [show (r :: t).take 3 = r :: t.take 2 from rfl,
    show STREAK_WEIGHTS = 1.0 :: [0.7, 0.5] from rfl,
    List.zip_cons_cons, winningStreakGo, if_pos hc]
  norm_num [min_def, pyRound10]

theorem count_head_winner_zero (r : PastRecord) (t : List PastRecord)
    (hdiff : r.goal_time_diff = some 0) :
    count_consecutive_big_losses (r :: t) 1.1 = 0 := by
  rw [count_consecutive_big_losses, hdiff]
  norm_num

/-- Claim C10 (confirmed): under the data-model convention that a winning
record carries a zero winner-time-gap, the win-streak bonus and the
consecutive-big-loss penalty are mutually exclusive: a positive streak bonus
forces a zero penalty, and a negative penalty forces a zero streak bonus —
both are gated on the single most-recent record. -/
theorem C10_streak_loss_exclusive (h : List PastRecord)
    (hconv : ∀ r ∈ h, r.chakujun = 1 → r.goal_time_diff = some 0) :
    (0 < calculate_winning_streak_bonus h →
      calculate_consecutive_big_loss_penalty h = 0) ∧
    (calculate_consecutive_big_loss_penalty h < 0 →
      calculate_winning_streak_bonus h = 0) := by
  match h with
  | [] =>
    rw [winning_streak_bonus_nil, consecutive_loss_penalty_nil]
    constructor <;> intro hx <;> [exact absurd hx (by norm_num); rfl]
  | r :: t =>
    by_cases hc : r.chakujun = 1
    · have hdiff : r.goal_time_diff = some 0 := hconv r (List.mem_cons_self r t) hc
      have hpen : calculate_consecutive_big_loss_penalty (r :: t) = 0 := by
        rw [calculate_consecutive_big_loss_penalty, if_neg (by simp : ¬(r :: t = [])),
          if_pos (count_head_winner_zero r t hdiff)]
      exact ⟨fun _ => hpen, fun hneg => by rw [hpen] at hneg; exact absurd hneg (by norm_num)⟩
    · have hb := streak_head_not_win r t hc
      exact ⟨fun hpos => by rw [hb] at hpos; exact absurd hpos (by norm_num), fun _ => hb⟩

/-- Witness for claim C10 at a single 0.6s-margin win: the streak bonus is
positive (+4.0), so the theorem yields a zero consecutive-big-loss
penalty. -/
theorem C10_witness : calculate_consecutive_big_loss_penalty [exC10] = 0 :=
  (C10_streak_loss_exclusive [exC10] (by decide)).1
    (by norm_num [calculate_winning_streak_bonus, winningStreakGo, streakMargin,
      STREAK_WEIGHTS, exC10, List.take, min_def, pyRound10])

end Scorer
